import Mathlib

/-!
Verification development for the search-quality scoring and filtering engine
(`src/quality/analyzer.ts` and its domain modules).

JavaScript values are modelled as follows: numbers as rationals (`ℚ`),
strings as Lean `String` manipulated through their character lists,
`undefined`-able fields as `Option`, and `RegExp.test` as an executable
interpreter over a small pattern AST (`RItem`) covering exactly the regex
constructs the source uses.  Every definition mirrors a specific function of
the source, named after it; in-place mutation of a result's `snippet` is made
explicit by returning the updated string.
-/

set_option maxRecDepth 8192

namespace GSQ

/-- Model of JavaScript `String.prototype.toLowerCase` (the source only ever
hits ASCII); lower-cases every character. -/
def lowerStr (s : String) : String := ⟨s.data.map Char.toLower⟩

/-- Model of JavaScript `s.substring(0, n)` for `0 ≤ n`. -/
def jsSubstringTo (s : String) (n : Nat) : String := ⟨s.data.take n⟩

/-- Character-list substring test: does `pat` occur inside `cs`? -/
def containsSub (pat : List Char) : List Char → Bool
  | [] => pat.isEmpty
  | c :: tl => pat.isPrefixOf (c :: tl) || containsSub pat tl

/-- Model of JavaScript `s.includes(pat)` (substring containment). -/
def strIncludes (s pat : String) : Bool := containsSub pat.data s.data

/-- Maximal runs of non-whitespace characters, in order. -/
def wsTokensAux (acc : List Char) : List Char → List (List Char)
  | [] => if acc.isEmpty then [] else [acc.reverse]
  | c :: cs =>
    if c.isWhitespace then
      if acc.isEmpty then wsTokensAux [] cs else acc.reverse :: wsTokensAux [] cs
    else wsTokensAux (c :: acc) cs

/-- Model of JavaScript `s.split(/\s+/)`: splits on maximal whitespace runs;
the empty string yields `[""]`, and leading/trailing whitespace contributes a
single empty token at the corresponding end (ECMAScript `String.prototype.split`
semantics with a `\s+` separator). -/
def splitWsJS (s : String) : List String :=
  match s.data with
  | [] => [""]
  | c :: cs =>
    let toks := (wsTokensAux [] (c :: cs)).map (fun l => String.mk l)
    let withLead := if c.isWhitespace then "" :: toks else toks
    if ((c :: cs).getLast (by simp)).isWhitespace then withLead ++ [""] else withLead

/-! ### Executable model of the source's regular expressions

`RCls` enumerates the character classes the source's regexes use, `RItem`
the sequence items, and an `RPat` is an alternation of item sequences with
optional `^` anchoring and `/i` flag.  `RPat.test` decides whether a match
exists anywhere in the string, which is exactly what `RegExp.prototype.test`
reports (backtracking existence semantics). -/

/-- Character classes appearing in the source's regexes. -/
inductive RCls where
  /-- `\s` -/
  | ws : RCls
  /-- `\w` = `[A-Za-z0-9_]` -/
  | word : RCls
  /-- `.` (anything but a line terminator) -/
  | anyNoNl : RCls
  /-- `[\s\S]` (truly any character) -/
  | anyCh : RCls
  /-- a negated set such as `[^`]` -/
  | notIn (l : List Char) : RCls
  /-- `[a-z]` -/
  | lowerAlpha : RCls
  /-- `[A-Z]` -/
  | upperAlpha : RCls
  deriving Repr, DecidableEq

def RCls.test : RCls → Char → Bool
  | .ws, c => c.isWhitespace
  | .word, c => c.isAlphanum || c = '_'
  | .anyNoNl, c => !(c = '\n' || c = '\r')
  | .anyCh, _ => true
  | .notIn l, c => !(l.contains c)
  | .lowerAlpha, c => 'a' ≤ c && c ≤ 'z'
  | .upperAlpha, c => 'A' ≤ c && c ≤ 'Z'

/-- One item of a regex sequence. -/
inductive RItem where
  /-- a literal string -/
  | lit (s : String) : RItem
  /-- a group of literal alternatives such as `(cdc|nih|who)` -/
  | alts (ls : List String) : RItem
  /-- a single character of a class -/
  | cls (c : RCls) : RItem
  /-- `n` or more repetitions of a class (`*` = 0, `+` = 1, `{3,}` = 3) -/
  | repMin (c : RCls) (n : Nat) : RItem
  /-- the URL-pattern group `([a-zA-Z0-9-]+\.)*` -/
  | labelDotStar : RItem
  /-- `$` (end of input, no `m` flag anywhere in the source) -/
  | eos : RItem
  /-- `\b` word boundary -/
  | wordB : RItem
  deriving Repr

/-- `[a-zA-Z0-9-]` -/
def isLabelChar (c : Char) : Bool :=
  c.isAlphanum || c = '-'

/-- Is an optional character a `\w` character (`none` = outside the input)? -/
def isWordOpt : Option Char → Bool
  | none => false
  | some c => c.isAlphanum || c = '_'

/-- All `(previous character, remaining input)` states reachable from
`(prev, cs)` by consuming zero or more repetitions of `[a-zA-Z0-9-]+\.`;
`fuel` bounds the recursion (the input length suffices). -/
def labelDotSuffixes (fuel : Nat) (prev : Option Char) (cs : List Char) :
    List (Option Char × List Char) :=
  match fuel with
  | 0 => [(prev, cs)]
  | fuel + 1 =>
    let run := (cs.takeWhile isLabelChar).length
    let nexts := (List.range run).filterMap (fun i =>
      let k := i + 1
      match cs.drop k with
      | '.' :: rest => some rest
      | _ => none)
    (prev, cs) :: nexts.flatMap (fun rest => labelDotSuffixes fuel (some '.') rest)

/-- The last character of `l`, or `prev` when `l` is empty. -/
def lastOr (prev : Option Char) (l : List Char) : Option Char :=
  match l.getLast? with
  | some c => some c
  | none => prev

/-- Does the item sequence `ps` match a prefix of `cs`, where `prev` is the
character just before the current position (for `\b`)?  Existence semantics:
a repetition may consume any admissible count. -/
def rmatch : List RItem → Option Char → List Char → Bool
  | [], _, _ => true
  | .lit l :: ps, prev, cs =>
    l.data.isPrefixOf cs && rmatch ps (lastOr prev l.data) (cs.drop l.data.length)
  | .alts ls :: ps, prev, cs =>
    ls.any (fun l => l.data.isPrefixOf cs &&
      rmatch ps (lastOr prev l.data) (cs.drop l.data.length))
  | .cls c :: ps, _, cs =>
    match cs with
    | [] => false
    | ch :: rest => c.test ch && rmatch ps (some ch) rest
  | .repMin c n :: ps, prev, cs =>
    let run := (cs.takeWhile c.test).length
    (List.range (run + 1)).any (fun k =>
      n ≤ k && rmatch ps (lastOr prev (cs.take k)) (cs.drop k))
  | .labelDotStar :: ps, prev, cs =>
    (labelDotSuffixes cs.length prev cs).any (fun p => rmatch ps p.1 p.2)
  | .eos :: ps, prev, cs => cs.isEmpty && rmatch ps prev cs
  | .wordB :: ps, prev, cs =>
    (isWordOpt prev != isWordOpt cs.head?) && rmatch ps prev cs

/-- Does `pat` match starting at some position of the input? -/
def rsearch (pat : List RItem) : Option Char → List Char → Bool
  | prev, cs =>
    rmatch pat prev cs ||
      match cs with
      | [] => false
      | c :: tl => rsearch pat (some c) tl

/-- A source regex: an alternation of item sequences, with `^` anchoring and
the `/i` flag (for which the input is lower-cased; the literals of such
patterns are written lower-cased below, mirroring case-insensitive matching
over the ASCII the source deals in). -/
structure RPat where
  seqs : List (List RItem)
  anchored : Bool := false
  ci : Bool := false
  deriving Repr

/-- Model of `RegExp.prototype.test`. -/
def RPat.test (p : RPat) (s : String) : Bool :=
  let cs := if p.ci then s.data.map Char.toLower else s.data
  p.seqs.any (fun sq => if p.anchored then rmatch sq none cs else rsearch sq none cs)

/-! ### Data model (`src/quality/types.ts`) -/

/-- The closed query-domain enumeration `QueryDomain`. -/
inductive QueryDomain where
  | medical
  | javascript
  | nim
  | general
  deriving Repr, DecidableEq

/-- `SearchResult`: the record produced upstream (`title`/`link`/`snippet`)
plus the optional fields the pipeline adds; `undefined` is `none`. -/
@[ext]
structure SearchResult where
  title : String
  link : String
  snippet : String
  score : Option ℚ := none
  issues : Option (List String) := none
  sourceType : Option String := none
  hasCodeExamples : Option Bool := none
  difficulty : Option String := none
  contentLength : Option String := none
  lastUpdated : Option String := none
  deriving Repr, DecidableEq

/-- `DomainConfig`: per-domain tunables.  Optional fields that a concrete
config object may simply not declare are `Option`s. -/
structure DomainConfig where
  minTitleLength : Nat
  minSnippetLength : Nat
  minRelevantWords : Nat
  authorityBoost : ℚ
  keywords : List String
  trustedDomains : Option (List RPat) := none
  codeIndicators : Option (List String) := none
  synonyms : Option (List (String × List String)) := none

/-- The `urlPatterns` record of `QualityConfig`. -/
structure UrlPatternConfig where
  trusted : List RPat
  suspicious : List RPat
  avoid : List RPat

/-- `QualityConfig`: global tunables plus the per-domain configs. -/
structure QualityConfig where
  minTitleLength : Nat
  minSnippetLength : Nat
  maxSnippetLength : Nat
  idealSnippetLength : Nat
  snippetLengthTolerance : Nat
  minRelevantWords : Nat
  titleWeight : ℚ
  snippetWeight : ℚ
  urlWeight : ℚ
  spamWords : List String
  medicalConfig : DomainConfig
  jsConfig : DomainConfig
  nimConfig : DomainConfig
  urlPatterns : UrlPatternConfig

/-! ### Domain configuration data

`medicalConfig` from `src/quality/domains/medical.ts`, `javascriptConfig`
from `src/quality/domains/javascript.ts`, `nimConfig` from
`src/quality/domains/nim.ts`, and `defaultQualityConfig` from
`src/quality/config.ts`.  Each regex literal of the source is transcribed
into an `RPat` (see the comment above each list). -/

/-- The common head `^https?:\/\/([a-zA-Z0-9-]+\.)*` of the URL regexes. -/
def urlHead : List RItem :=
  [.alts ["https", "http"], .lit "://", .labelDotStar]

/-- An anchored URL pattern `^https?:\/\/([a-zA-Z0-9-]+\.)*` followed by the
given tail items. -/
def urlPat (tail : List RItem) : RPat :=
  { seqs := [urlHead ++ tail], anchored := true }

/-- Like `urlPat` but carrying the `/i` flag. -/
def urlPatCI (tail : List RItem) : RPat :=
  { seqs := [urlHead ++ tail], anchored := true, ci := true }

/-- `medicalConfig.trustedDomains` (seven regexes). -/
def medicalTrustedDomains : List RPat :=
  [ urlPat [.alts ["cdc", "nih", "who", "fda", "cms"], .lit ".gov"],
    urlPat [.lit "pubmed.ncbi.nlm.nih.gov"],
    urlPat [.alts ["nature", "science"], .lit ".com"],
    urlPat [.alts ["nejm", "jamanetwork", "bmj", "thelancet"], .lit ".com"],
    urlPat [.alts ["mayoclinic", "clevelandclinic", "jhopkins"], .lit ".",
            .alts ["com", "org", "edu"]],
    urlPat [.alts ["webmd", "healthline", "medicalnewstoday"], .lit ".com"],
    urlPat [.alts ["ama-assn", "aafp", "acog"], .lit ".org"] ]

/-- `medicalConfig` (`src/quality/domains/medical.ts`). -/
def medicalConfig : DomainConfig :=
  { minTitleLength := 3
    minSnippetLength := 15
    minRelevantWords := 1
    authorityBoost := 0.8
    keywords :=
      [ "covid", "health", "medical", "disease", "study", "research",
        "clinical", "treatment", "diagnosis", "cdc", "who", "vaccine",
        "pandemic", "virus", "prevention", "guidelines", "therapy",
        "patient", "hospital", "medicine", "pharmaceutical", "drug",
        "symptom", "infection", "outbreak", "epidemic", "public health" ]
    trustedDomains := some medicalTrustedDomains
    synonyms := some
      [ ("covid", ["coronavirus", "sars-cov-2", "pandemic", "covid-19"]),
        ("health", ["medical", "healthcare", "wellness", "medicine"]),
        ("study", ["research", "trial", "investigation", "analysis"]),
        ("guidelines", ["recommendations", "protocols", "standards", "practices"]) ] }

/-- `javascriptConfig.trustedDomains` (twelve regexes). -/
def javascriptTrustedDomains : List RPat :=
  [ urlPat [.alts ["developer.mozilla.org", "mdn."]],
    urlPat [.lit "javascript.info"],
    urlPat [.lit "nodejs.org"],
    urlPat [.lit "typescript-lang.org"],
    urlPat [.lit "freecodecamp.org"],
    urlPat [.lit "dev.to"],
    urlPat [.lit "github.com"],
    urlPat [.lit "stackoverflow.com"],
    urlPat [.lit "babeljs.io"],
    urlPat [.lit "vitejs.dev"],
    urlPat [.lit "jestjs.io"],
    urlPat [.lit "eslint.org"] ]

/-- `javascriptConfig` (`src/quality/domains/javascript.ts`).  The brace
code-indicators are written with `\x7b`/`\x7d` escapes. -/
def javascriptConfig : DomainConfig :=
  { minTitleLength := 3
    minSnippetLength := 20
    minRelevantWords := 1
    authorityBoost := 0.8
    keywords :=
      [ "javascript", "js", "typescript", "node", "react", "vue", "angular",
        "function", "async", "promise", "callback", "closure", "prototype",
        "dom", "api", "framework", "library", "npm", "webpack", "babel",
        "tips", "tricks", "best practices", "tutorial", "guide", "example",
        "esm", "cjs", "module", "package.json", "eslint", "prettier",
        "jest", "cypress", "vitest", "rollup", "vite", "parcel" ]
    trustedDomains := some javascriptTrustedDomains
    codeIndicators := some
      [ "function", "=>", "const", "let", "var", "class", "import", "export",
        "\x7b", "\x7d", "()", "[]" ]
    synonyms := some
      [ ("javascript", ["js", "ecmascript", "node.js", "nodejs"]),
        ("function", ["method", "procedure", "callback"]),
        ("async", ["asynchronous", "promise", "await"]),
        ("tips", ["tricks", "hacks", "best practices", "patterns"]) ] }

/-- `nimConfig.trustedDomains` (nine regexes; the last four carry `/i`). -/
def nimTrustedDomains : List RPat :=
  [ urlPat [.lit "nim-lang.org"],
    urlPat [.lit "nim-lang.github.io"],
    urlPat [.lit "forum.nim-lang.org"],
    urlPat [.lit "github.com/nim-lang"],
    urlPat [.lit "nimble.directory"],
    urlPatCI [.lit "rosettacode.org", .repMin .anyNoNl 0, .lit "nim"],
    urlPatCI [.lit "stackoverflow.com", .repMin .anyNoNl 0, .lit "nim"],
    urlPatCI [.lit "reddit.com/r/nim"],
    urlPatCI [.lit "dev.to", .repMin .anyNoNl 0, .lit "nim"] ]

/-- `nimConfig` (`src/quality/domains/nim.ts`). -/
def nimConfig : DomainConfig :=
  { minTitleLength := 3
    minSnippetLength := 20
    minRelevantWords := 1
    authorityBoost := 0.8
    keywords :=
      [ "nim", "nim-lang", "nimrod", "nimble", "nimsuggest", "nimscript",
        "proc", "template", "macro", "iterator", "converter", "method",
        "var", "let", "const", "type", "object", "ref", "ptr", "seq",
        "array", "string", "int", "float", "bool", "char", "range",
        "gc", "memory management", "compile time", "metaprogramming",
        "async", "threading", "channels", "parallelism", "performance",
        "systems programming", "zero cost", "manual memory" ]
    trustedDomains := some nimTrustedDomains
    codeIndicators := some
      [ "proc", "func", "template", "macro", "iterator", "converter",
        "var", "let", "const", "type", "when", "case", "of", "elif",
        "discard", "result", "return", "yield", "break", "continue",
        "import", "include", "from", "export", "echo", "new", "addr" ]
    synonyms := some
      [ ("nim", ["nim-lang", "nimrod"]),
        ("proc", ["procedure", "function", "def"]),
        ("template", ["generic", "metaprogramming"]),
        ("macro", ["metaprogramming", "compile-time"]),
        ("seq", ["sequence", "array", "list"]),
        ("async", ["asynchronous", "await", "future"]),
        ("gc", ["garbage collector", "memory management"]),
        ("performance", ["speed", "fast", "efficient", "optimization"]) ] }

/-- `defaultQualityConfig.urlPatterns.trusted` (`src/quality/config.ts`):
`^https?:\/\/([a-zA-Z0-9-]+\.)*(edu|ac\.[a-z]{2})$`,
`^https?:\/\/([a-zA-Z0-9-]+\.)*(gov|mil)$`, then the wikipedia, github and
stackoverflow patterns. -/
def globalTrustedPatterns : List RPat :=
  [ { seqs := [ urlHead ++ [.lit "edu", .eos],
                urlHead ++ [.lit "ac.", .cls .lowerAlpha, .cls .lowerAlpha, .eos] ],
      anchored := true },
    urlPat [.alts ["gov", "mil"], .eos],
    urlPat [.lit "wikipedia.org"],
    urlPat [.lit "github.com"],
    urlPat [.lit "stackoverflow.com"] ]

/-- `urlPatterns.suspicious`: `\.(php|cgi|jsp)\?` and
`\b(ads?|click|buy|sale|cheap|free|deal)\b` (the latter with `/i`). -/
def globalSuspiciousPatterns : List RPat :=
  [ { seqs := [[.lit ".", .alts ["php", "cgi", "jsp"], .lit "?"]] },
    { seqs := [[.wordB, .alts ["ads", "ad", "click", "buy", "sale", "cheap",
                               "free", "deal"], .wordB]],
      ci := true } ]

/-- `urlPatterns.avoid`: the four tutorial-mill patterns. -/
def globalAvoidPatterns : List RPat :=
  [ urlPat [.lit "w3schools.com"],
    urlPat [.lit "tutorialspoint.com"],
    urlPat [.lit "geeksforgeeks.org"],
    urlPat [.lit "javatpoint.com"] ]

/-- `defaultQualityConfig` (`src/quality/config.ts`). -/
def defaultQualityConfig : QualityConfig :=
  { minTitleLength := 5
    minSnippetLength := 30
    maxSnippetLength := 800
    idealSnippetLength := 300
    snippetLengthTolerance := 50
    minRelevantWords := 1
    titleWeight := 0.35
    snippetWeight := 0.4
    urlWeight := 0.25
    spamWords := ["spam", "advertisement", "promoted", "sponsored"]
    medicalConfig := medicalConfig
    jsConfig := javascriptConfig
    nimConfig := nimConfig
    urlPatterns :=
      { trusted := globalTrustedPatterns
        suspicious := globalSuspiciousPatterns
        avoid := globalAvoidPatterns } }

/-! ### Domain handlers

One function per handler method that the analyzer's scoring/enrichment
pipeline calls.  Each handler method reads only `title`/`snippet`/`link`,
so the functions take those strings directly. -/

/-- `/^[A-Z].*[.!?]$/` — used by `GeneralDomainHandler.validateContent` and
by `SearchQualityAnalyzer.validateGeneralContent`. -/
def sentenceRe : RPat :=
  { seqs := [[.cls .upperAlpha, .repMin .anyNoNl 0, .alts [".", "!", "?"], .eos]],
    anchored := true }

/-- Unique-word ratio of the whitespace tokens of the lower-cased snippet
(`new Set(words).size / words.length`). -/
def wordDiversity (snippet : String) : ℚ :=
  let words := splitWsJS (lowerStr snippet)
  (words.dedup.length : ℚ) / (words.length : ℚ)

/-- `GeneralDomainHandler.validateContent`. -/
def generalValidateContent (snippet : String) : ℚ :=
  let s1 : ℚ := if sentenceRe.test snippet then 0.1 else 0
  if wordDiversity snippet < 0.5 then s1 - 0.1 else s1

/-- The `medicalIndicators` list of `MedicalDomainHandler.validateContent`. -/
def medicalIndicators : List String :=
  [ "study", "research", "clinical", "trial", "patient", "treatment",
    "diagnosis", "therapy", "prevention", "symptoms", "healthcare",
    "medicine", "medical", "hospital", "doctor", "physician",
    "epidemiology", "public health", "infectious", "disease" ]

/-- The six `authoritativePatterns` regexes of
`MedicalDomainHandler.validateContent` (all `/i`). -/
def medicalAuthoritativePatterns : List RPat :=
  [ { seqs := [[.lit "according to", .repMin .anyNoNl 0,
                .alts ["cdc", "who", "nih", "fda"]]], ci := true },
    { seqs := [[.lit "published in", .repMin .anyNoNl 0,
                .alts ["nature", "nejm", "jama", "bmj", "lancet"]]], ci := true },
    { seqs := [[.alts ["researchers", "researcher"], .lit " ",
                .alts ["found", "discovered", "concluded"]]], ci := true },
    { seqs := [ [.alts ["clinical trial", "randomized"]],
                [.lit "peer", .cls .anyNoNl, .lit "reviewed"] ], ci := true },
    { seqs := [ [.lit "meta", .cls .anyNoNl, .lit "analysis"],
                [.lit "systematic review"] ], ci := true },
    { seqs := [[.wordB, .alts ["rct", "randomized controlled trial"], .wordB]],
      ci := true } ]

/-- The four `evidencePatterns` regexes of
`MedicalDomainHandler.validateContent` (all `/i`). -/
def medicalEvidencePatterns : List RPat :=
  [ { seqs := [ [.lit "evidence", .cls .anyNoNl, .lit "based"],
                [.lit "evidence", .cls .anyNoNl, .lit "shows"] ], ci := true },
    { seqs := [[.lit "statistically significant"]], ci := true },
    { seqs := [ [.lit "peer", .cls .anyNoNl, .lit "reviewed"],
                [.lit "peer reviewed"] ], ci := true },
    { seqs := [ [.lit "systematic", .cls .anyNoNl, .lit "review"],
                [.lit "meta", .cls .anyNoNl, .lit "analysis"] ], ci := true } ]

/-- `MedicalDomainHandler.validateContent`. -/
def medicalValidateContent (title snippet : String) : ℚ :=
  let hasMedicalTerms := medicalIndicators.any (fun term =>
    strIncludes (lowerStr title) term || strIncludes (lowerStr snippet) term)
  let s1 : ℚ := if hasMedicalTerms then 0.15 else 0
  let s2 : ℚ :=
    if medicalAuthoritativePatterns.any (fun p => p.test title || p.test snippet)
    then s1 + 0.2 else s1
  if medicalEvidencePatterns.any (fun p => p.test title || p.test snippet)
  then s2 + 0.1 else s2

/-- The four `practicalPatterns` regexes of
`JavaScriptDomainHandler.validateContent` (all `/i`). -/
def jsPracticalPatterns : List RPat :=
  [ { seqs := [ [.lit "example"], [.lit "demo"], [.lit "tutorial"],
                [.lit "how", .cls .anyNoNl, .lit "to"], [.lit "guide"] ],
      ci := true },
    { seqs := [ [.lit "step", .cls .anyNoNl, .lit "by", .cls .anyNoNl, .lit "step"],
                [.lit "walkthrough"] ], ci := true },
    { seqs := [ [.lit "best", .cls .anyNoNl, .lit "practices"],
                [.lit "tips"], [.lit "tricks"] ], ci := true },
    { seqs := [[.alts ["beginner", "advanced", "intermediate"]]], ci := true } ]

/-- ``/```|`[^`]+`|<code>|<pre>/i`` of `JavaScriptDomainHandler.validateContent`. -/
def jsCodeFenceRe : RPat :=
  { seqs := [ [.lit "```"],
              [.lit "`", .repMin (.notIn ['`']) 1, .lit "`"],
              [.lit "<code>"], [.lit "<pre>"] ], ci := true }

/-- The `ecosystemTerms` list of `JavaScriptDomainHandler.validateContent`. -/
def jsEcosystemTerms : List String :=
  [ "npm", "yarn", "webpack", "babel", "eslint", "typescript",
    "react", "vue", "angular", "node.js", "express", "next.js" ]

/-- `JavaScriptDomainHandler.validateContent`. -/
def jsValidateContent (title snippet : String) : ℚ :=
  let codeIndicators := javascriptConfig.codeIndicators.getD []
  let hasCode := codeIndicators.any (fun ind => strIncludes snippet ind)
  let s1 : ℚ := if hasCode then 0.2 else 0
  let s2 : ℚ :=
    if jsPracticalPatterns.any (fun p => p.test (title ++ " " ++ snippet))
    then s1 + 0.15 else s1
  let s3 : ℚ := if jsCodeFenceRe.test snippet then s2 + 0.1 else s2
  let hasEcosystemTerms := jsEcosystemTerms.any (fun term =>
    strIncludes (lowerStr title) term || strIncludes (lowerStr snippet) term)
  if hasEcosystemTerms then s3 + 0.1 else s3

/-- The `nimConcepts` list of `NimDomainHandler.validateContent`. -/
def nimConcepts : List String :=
  [ "compile time", "zero cost", "manual memory", "gc:none",
    "metaprogramming", "ast", "hygiene", "gensym", "quote",
    "untyped", "typed", "static", "concepts", "generics",
    "nim-lang", "nimble", "nimsuggest", "nimscript" ]

/-- The five `practicalPatterns` regexes of
`NimDomainHandler.validateContent` (all `/i`). -/
def nimPracticalPatterns : List RPat :=
  [ { seqs := [ [.lit "example"], [.lit "demo"], [.lit "tutorial"],
                [.lit "how", .cls .anyNoNl, .lit "to"], [.lit "guide"] ],
      ci := true },
    { seqs := [ [.lit "step", .cls .anyNoNl, .lit "by", .cls .anyNoNl, .lit "step"],
                [.lit "walkthrough"] ], ci := true },
    { seqs := [ [.lit "best", .cls .anyNoNl, .lit "practices"],
                [.lit "tips"], [.lit "tricks"], [.lit "patterns"] ], ci := true },
    { seqs := [ [.lit "beginner"],
                [.lit "getting", .cls .anyNoNl, .lit "started"],
                [.lit "introduction"] ], ci := true },
    { seqs := [ [.lit "advanced"], [.lit "expert"],
                [.lit "deep", .cls .anyNoNl, .lit "dive"] ], ci := true } ]

/-- ``/```nim|```\s*nim|<code>|<pre>/i`` of `NimDomainHandler.validateContent`. -/
def nimCodeFenceRe : RPat :=
  { seqs := [ [.lit "```nim"],
              [.lit "```", .repMin .ws 0, .lit "nim"],
              [.lit "<code>"], [.lit "<pre>"] ], ci := true }

/-- The `ecosystemTerms` list of `NimDomainHandler.validateContent`. -/
def nimEcosystemTerms : List String :=
  [ "nimble", "karax", "jester", "prologue", "asynchttpserver",
    "parseutils", "strutils", "sequtils", "tables", "sets",
    "json", "yaml", "xml", "regex", "unittest", "testament",
    "fusion", "synthesis", "pkg", "nimgen", "c2nim" ]

/-- The `performanceTerms` list of `NimDomainHandler.validateContent`. -/
def nimPerformanceTerms : List String :=
  [ "performance", "speed", "fast", "efficient", "benchmark",
    "systems programming", "low level", "embedded", "gamedev",
    "scientific computing", "hpc", "parallel" ]

/-- `NimDomainHandler.validateContent`. -/
def nimValidateContent (title snippet : String) : ℚ :=
  let nimCodeIndicators := nimConfig.codeIndicators.getD []
  let hasNimCode := nimCodeIndicators.any (fun ind => strIncludes snippet ind)
  let s1 : ℚ := if hasNimCode then 0.25 else 0
  let hasNimConcepts := nimConcepts.any (fun c =>
    strIncludes (lowerStr title) c || strIncludes (lowerStr snippet) c)
  let s2 : ℚ := if hasNimConcepts then s1 + 0.2 else s1
  let s3 : ℚ :=
    if nimPracticalPatterns.any (fun p => p.test (title ++ " " ++ snippet))
    then s2 + 0.15 else s2
  let s4 : ℚ := if nimCodeFenceRe.test snippet then s3 + 0.15 else s3
  let hasEcosystemTerms := nimEcosystemTerms.any (fun term =>
    strIncludes (lowerStr title) term || strIncludes (lowerStr snippet) term)
  let s5 : ℚ := if hasEcosystemTerms then s4 + 0.1 else s4
  let hasPerformanceContext := nimPerformanceTerms.any (fun term =>
    strIncludes (lowerStr title) term || strIncludes (lowerStr snippet) term)
  if hasPerformanceContext then s5 + 0.1 else s5

/-- The eight (case-sensitive) `idiomaticPatterns` regexes of
`NimDomainHandler.validateNimSpecificPatterns`. -/
def nimIdiomaticPatterns : List RPat :=
  [ { seqs := [[.lit "proc", .repMin .anyNoNl 0, .lit ":", .repMin .ws 0,
                .alts ["void", "auto", "untyped"]]] },
    { seqs := [[.lit "template", .repMin .anyNoNl 0, .lit ":", .repMin .ws 0,
                .lit "untyped"]] },
    { seqs := [[.lit "macro", .repMin .anyNoNl 0, .lit ":", .repMin .ws 0,
                .lit "untyped"]] },
    { seqs := [[.lit "when", .repMin .ws 1, .lit "defined("]] },
    { seqs := [[.lit "when", .repMin .ws 1, .lit "compiles("]] },
    { seqs := [[.lit "static:", .repMin .ws 0, .lit "assert"]] },
    { seqs := [[.lit "result", .repMin .ws 0, .lit "="]] },
    { seqs := [[.lit "discard", .repMin .ws 1]] } ]

/-- The `compilationTargets` list of `validateNimSpecificPatterns`. -/
def nimCompilationTargets : List String :=
  [ "c backend", "cpp backend", "js backend", "compile to c",
    "compile to javascript", "cross platform", "embedded",
    "webassembly", "wasm" ]

/-- The `uniqueFeatures` list of `validateNimSpecificPatterns`. -/
def nimUniqueFeatures : List String :=
  [ "memory safety", "zero cost abstractions", "compile time execution",
    "hygiene", "gensym", "varargs", "openarray", "concepts",
    "effect system", "exceptions as values", "nil safety" ]

/-- `NimDomainHandler.validateNimSpecificPatterns`: idiomatic patterns are
tested on the snippet; targets and unique features on the lower-cased
`title ++ " " ++ snippet`. -/
def validateNimSpecificPatterns (title snippet : String) : ℚ :=
  let content := lowerStr (title ++ " " ++ snippet)
  let s1 : ℚ := if nimIdiomaticPatterns.any (fun p => p.test snippet) then 0.15 else 0
  let s2 : ℚ :=
    if nimCompilationTargets.any (fun t => strIncludes content t) then s1 + 0.1 else s1
  if nimUniqueFeatures.any (fun f => strIncludes content f) then s2 + 0.12 else s2

/-- `validateContent` dispatched over the active handler
(`getDomainHandler` in the source). -/
def handlerValidateContent (domain : QueryDomain) (title snippet : String) : ℚ :=
  match domain with
  | .medical => medicalValidateContent title snippet
  | .javascript => jsValidateContent title snippet
  | .nim => nimValidateContent title snippet
  | .general => generalValidateContent snippet

/-! #### Source-type, difficulty, and code-example detection (enrichment) -/

/-- `MedicalDomainHandler.detectSourceType`. -/
def medicalDetectSourceType (url : String) : String :=
  let lowerUrl := lowerStr url
  if (RPat.mk [[.lit ".", .alts ["gov", "edu"], .eos]] false false).test lowerUrl ||
     (RPat.mk [[.alts ["cdc", "nih", "who", "fda", "pubmed", "nature", "nejm",
                       "jama", "bmj", "lancet", "mayoclinic"]]] false false).test lowerUrl
  then "Medical Authority" else "Tutorial"

/-- `GeneralDomainHandler.detectSourceType`. -/
def generalDetectSourceType (url : String) : String :=
  let lowerUrl := lowerStr url
  if (RPat.mk [[.alts ["news", "cnn", "bbc", "reuters", "ap.org", "npr.org"]]]
        false false).test lowerUrl then "News"
  else if (RPat.mk [ [.lit ".edu", .eos],
                     [.lit ".ac.", .cls .lowerAlpha, .cls .lowerAlpha, .eos] ]
             false false).test lowerUrl then "Documentation"
  else if strIncludes lowerUrl "blog" || strIncludes lowerUrl "medium.com" then "Blog"
  else "Tutorial"

/-- `JavaScriptDomainHandler.detectSourceType`. -/
def jsDetectSourceType (url : String) : String :=
  let lowerUrl := lowerStr url
  if strIncludes lowerUrl "github.com" || strIncludes lowerUrl "gitlab.com" ||
     strIncludes lowerUrl "bitbucket.org" then "Code Repository"
  else if strIncludes lowerUrl "stackoverflow.com" ||
          strIncludes lowerUrl "stackexchange.com" then "Q&A"
  else if strIncludes lowerUrl "developer.mozilla.org" ||
          strIncludes lowerUrl "/docs/" ||
          strIncludes lowerUrl "documentation" ||
          (RPat.mk [[.alts ["nodejs", "typescript-lang", "reactjs"], .lit ".org"]]
             false false).test lowerUrl then "Documentation"
  else if strIncludes lowerUrl "medium.com" || strIncludes lowerUrl "dev.to" ||
          strIncludes lowerUrl "blog" ||
          strIncludes lowerUrl "freecodecamp.org" then "Blog"
  else "Tutorial"

/-- `NimDomainHandler.detectSourceType`. -/
def nimDetectSourceType (url : String) : String :=
  let lowerUrl := lowerStr url
  if strIncludes lowerUrl "nim-lang.org" ||
     strIncludes lowerUrl "nim-lang.github.io" then "Documentation"
  else if strIncludes lowerUrl "github.com" || strIncludes lowerUrl "gitlab.com" ||
          strIncludes lowerUrl "bitbucket.org" then "Code Repository"
  else if strIncludes lowerUrl "stackoverflow.com" ||
          strIncludes lowerUrl "stackexchange.com" then "Q&A"
  else if strIncludes lowerUrl "forum.nim-lang.org" then "Q&A"
  else if strIncludes lowerUrl "nimble.directory" then "Documentation"
  else if strIncludes lowerUrl "medium.com" || strIncludes lowerUrl "dev.to" ||
          strIncludes lowerUrl "blog" then "Blog"
  else if strIncludes lowerUrl "rosettacode.org" then "Code Repository"
  else "Tutorial"

/-- `detectSourceType` dispatched over the active handler. -/
def handlerDetectSourceType (domain : QueryDomain) (url : String) : String :=
  match domain with
  | .medical => medicalDetectSourceType url
  | .javascript => jsDetectSourceType url
  | .nim => nimDetectSourceType url
  | .general => generalDetectSourceType url

/-- `MedicalDomainHandler.estimateDifficulty`. -/
def medicalEstimateDifficulty (title snippet : String) : String :=
  let content := lowerStr (title ++ " " ++ snippet)
  let complexTerms :=
    [ "pathophysiology", "pharmacokinetics", "meta-analysis",
      "randomized controlled", "systematic review", "clinical trial",
      "biomarker", "genomics", "proteomics", "molecular",
      "biochemistry", "immunology", "epidemiology" ]
  let basicTerms :=
    [ "overview", "introduction", "basics", "what is",
      "simple explanation", "general information", "symptoms",
      "common", "everyday", "patient guide" ]
  if complexTerms.any (fun t => strIncludes content t) then "Advanced"
  else if basicTerms.any (fun t => strIncludes content t) then "Beginner"
  else "Intermediate"

/-- `GeneralDomainHandler.estimateDifficulty`. -/
def generalEstimateDifficulty (title snippet : String) : String :=
  let content := lowerStr (title ++ " " ++ snippet)
  let complexTerms := ["advanced", "complex", "sophisticated", "expert"]
  let basicTerms := ["basic", "simple", "intro", "beginner", "getting started"]
  if complexTerms.any (fun t => strIncludes content t) then "Advanced"
  else if basicTerms.any (fun t => strIncludes content t) then "Beginner"
  else "Intermediate"

/-- The advanced/beginner term lists of
`JavaScriptDomainHandler.estimateDifficulty`. -/
def jsAdvancedTerms : List String :=
  [ "closure", "prototype", "async", "promise", "generator", "proxy",
    "webpack", "babel", "advanced", "complex", "optimization",
    "performance", "architecture", "design patterns", "microservices",
    "typescript", "decorator", "reflection", "metaprogramming" ]

def jsBeginnerTerms : List String :=
  [ "variable", "loop", "if", "basic", "intro", "beginner", "start",
    "getting started", "first steps", "fundamentals", "basics",
    "hello world", "simple", "easy", "tutorial for beginners" ]

/-- `JavaScriptDomainHandler.estimateDifficulty`. -/
def jsEstimateDifficulty (title snippet : String) : String :=
  let content := lowerStr (title ++ " " ++ snippet)
  let advancedCount := (jsAdvancedTerms.filter (fun t => strIncludes content t)).length
  let beginnerCount := (jsBeginnerTerms.filter (fun t => strIncludes content t)).length
  if 2 ≤ advancedCount then "Advanced"
  else if 1 ≤ beginnerCount then "Beginner"
  else "Intermediate"

/-- The three term tiers of `NimDomainHandler.estimateDifficulty`. -/
def nimAdvancedTerms : List String :=
  [ "metaprogramming", "macro", "template", "ast", "compile time",
    "generics", "concepts", "effects", "gc:none", "manual memory",
    "ptr", "ref", "unsafe", "cast", "converter", "pragmas",
    "advanced", "expert", "complex", "optimization", "performance",
    "systems programming", "low level", "assembly", "ffi",
    "threading", "parallel", "async", "channels", "atomics" ]

def nimBeginnerTerms : List String :=
  [ "introduction", "getting started", "beginner", "tutorial",
    "first steps", "basics", "fundamentals", "hello world",
    "simple", "easy", "start", "learn nim", "nim tutorial",
    "basic syntax", "variables", "functions", "loops", "conditions" ]

def nimIntermediateTerms : List String :=
  [ "object oriented", "modules", "packages", "nimble", "json",
    "files", "strings", "arrays", "sequences", "tables",
    "error handling", "exceptions", "io", "networking" ]

/-- `NimDomainHandler.estimateDifficulty`. -/
def nimEstimateDifficulty (title snippet : String) : String :=
  let content := lowerStr (title ++ " " ++ snippet)
  let advancedCount := (nimAdvancedTerms.filter (fun t => strIncludes content t)).length
  let beginnerCount := (nimBeginnerTerms.filter (fun t => strIncludes content t)).length
  let intermediateCount :=
    (nimIntermediateTerms.filter (fun t => strIncludes content t)).length
  if 2 ≤ advancedCount then "Advanced"
  else if 1 ≤ beginnerCount && advancedCount = 0 then "Beginner"
  else if 1 ≤ intermediateCount then "Intermediate"
  else if (RPat.mk [[.alts ["template", "macro", "generics", "concepts"]]]
             false false).test content then "Advanced"
  else if (RPat.mk [[.alts ["proc", "func", "basic", "simple"]]]
             false false).test content then "Beginner"
  else "Intermediate"

/-- `estimateDifficulty` dispatched over the active handler. -/
def handlerEstimateDifficulty (domain : QueryDomain) (title snippet : String) : String :=
  match domain with
  | .medical => medicalEstimateDifficulty title snippet
  | .javascript => jsEstimateDifficulty title snippet
  | .nim => nimEstimateDifficulty title snippet
  | .general => generalEstimateDifficulty title snippet

/-- `JavaScriptDomainHandler.detectCodeExamples`. -/
def jsDetectCodeExamples (snippet : String) : Bool :=
  let formattedCodePatterns : List RPat :=
    [ { seqs := [[.lit "```", .repMin .anyCh 0, .lit "```"]] },
      { seqs := [[.lit "`", .repMin (.notIn ['`', '\n']) 3, .lit "`"]] },
      { seqs := [[.lit "<code>", .repMin .anyCh 0, .lit "</code>"]] },
      { seqs := [[.lit "<pre>", .repMin .anyCh 0, .lit "</pre>"]] } ]
  let codeLinePatterns : List RPat :=
    [ { seqs := [[.lit "function", .repMin .anyNoNl 0, .lit "\x7b",
                  .repMin .anyNoNl 0, .lit "\x7d"]] },
      { seqs := [[.lit "const", .repMin .anyNoNl 0, .lit "=",
                  .repMin .anyNoNl 0, .lit "=>"]] },
      { seqs := [[.repMin .word 1, .lit ".", .repMin .word 1, .lit "(",
                  .repMin (.notIn [')']) 0, .lit ")"]] } ]
  formattedCodePatterns.any (fun p => p.test snippet) ||
    codeLinePatterns.any (fun p => p.test snippet)

/-- `NimDomainHandler.detectCodeExamples`. -/
def nimDetectCodeExamples (snippet : String) : Bool :=
  let nimKw : RItem := .alts ["proc", "func", "template", "macro", "type"]
  let formattedCodePatterns : List RPat :=
    [ { seqs := [[.lit "```nim", .repMin .anyCh 0, .lit "```"]], ci := true },
      { seqs := [[.lit "```", .repMin .ws 0, .repMin .anyCh 0, nimKw,
                  .repMin .anyCh 0, .lit "```"]], ci := true },
      { seqs := [[.lit "<code>", .repMin .anyCh 0,
                  .alts ["proc", "func", "template", "macro"],
                  .repMin .anyCh 0, .lit "</code>"]], ci := true },
      { seqs := [[.lit "<pre>", .repMin .anyCh 0,
                  .alts ["proc", "func", "template", "macro"],
                  .repMin .anyCh 0, .lit "</pre>"]], ci := true } ]
  let nimCodeLinePatterns : List RPat :=
    [ { seqs := [[.lit "proc", .repMin .ws 1, .repMin .word 1,
                  .repMin .anyNoNl 0, .lit "="]] },
      { seqs := [[.lit "template", .repMin .ws 1, .repMin .word 1,
                  .repMin .anyNoNl 0, .lit "="]] },
      { seqs := [[.lit "macro", .repMin .ws 1, .repMin .word 1,
                  .repMin .anyNoNl 0, .lit "="]] },
      { seqs := [[.lit "type", .repMin .ws 1, .repMin .word 1, .repMin .ws 0,
                  .lit "=", .repMin .ws 0,
                  .alts ["object", "enum", "ref", "ptr"]]] },
      { seqs := [[.lit "when", .repMin .ws 1, .repMin .word 1, .lit ":",
                  .repMin .anyCh 0, .lit "else:"]] },
      { seqs := [[.lit "case", .repMin .ws 1, .repMin .word 1, .repMin .ws 1,
                  .lit "of", .repMin .anyCh 0, .lit "else:"]] } ]
  formattedCodePatterns.any (fun p => p.test snippet) ||
    nimCodeLinePatterns.any (fun p => p.test snippet)

/-! ### The analyzer (`src/quality/analyzer.ts`) -/

/-- `SearchQualityAnalyzer.detectQueryDomain`. -/
def detectQueryDomain (cfg : QualityConfig) (query : String) : QueryDomain :=
  let lowerQuery := lowerStr query
  if cfg.medicalConfig.keywords.any (fun k => strIncludes lowerQuery k) then .medical
  else if cfg.jsConfig.keywords.any (fun k => strIncludes lowerQuery k) then .javascript
  else if cfg.nimConfig.keywords.any (fun k => strIncludes lowerQuery k) then .nim
  else .general

/-- `getDomainConfig`: the `general` case builds an ad-hoc config from the
global thresholds with boost `0.3` and no optional fields. -/
def getDomainConfig (cfg : QualityConfig) : QueryDomain → DomainConfig
  | .medical => cfg.medicalConfig
  | .javascript => cfg.jsConfig
  | .nim => cfg.nimConfig
  | .general =>
    { minTitleLength := cfg.minTitleLength
      minSnippetLength := cfg.minSnippetLength
      minRelevantWords := cfg.minRelevantWords
      authorityBoost := 0.3
      keywords := [] }

/-- `validateLength`, with the in-place mutation
`result.snippet = result.snippet.substring(0, max) + '...'` made explicit:
returns `(score delta, issues pushed, snippet after the call)`. -/
def validateLength (cfg : QualityConfig) (dc : DomainConfig)
    (title snippet : String) : ℚ × List String × String :=
  let t : ℚ × List String :=
    if title.length < dc.minTitleLength then (-0.2, ["Title too short"]) else (0, [])
  if snippet.length < dc.minSnippetLength then
    (t.1 - 0.2, t.2 ++ ["Snippet too short"], snippet)
  else if cfg.maxSnippetLength < snippet.length then
    (t.1, t.2, jsSubstringTo snippet cfg.maxSnippetLength ++ "...")
  else
    let lengthDiff : ℚ := |(snippet.length : ℚ) - (cfg.idealSnippetLength : ℚ)|
    if lengthDiff ≤ (cfg.snippetLengthTolerance : ℚ) then
      (t.1 + 0.1 * (1 - lengthDiff / (cfg.snippetLengthTolerance : ℚ)), t.2, snippet)
    else (t.1, t.2, snippet)

/-- The `relevantWords` accumulator of `validateRelevance`: one full credit
per query token found verbatim among the title or snippet tokens, plus 0.8
per synonym-token hit (per query token, per synonym). -/
def relevantWordsCount (dc : DomainConfig) (query title snippet : String) : ℚ :=
  let queryWords := splitWsJS (lowerStr query)
  let titleWords := splitWsJS (lowerStr title)
  let snippetWords := splitWsJS (lowerStr snippet)
  let direct := queryWords.foldl (fun acc w =>
    if titleWords.contains w || snippetWords.contains w then acc + 1 else acc) (0 : ℚ)
  match dc.synonyms with
  | none => direct
  | some tbl =>
    queryWords.foldl (fun acc w =>
      ((tbl.lookup w).getD []).foldl (fun acc2 syn =>
        if titleWords.contains syn || snippetWords.contains syn then acc2 + 0.8
        else acc2) acc) direct

/-- `validateRelevance`: returns `(score delta, issues pushed)`. -/
def validateRelevance (cfg : QualityConfig) (dc : DomainConfig)
    (query title snippet : String) : ℚ × List String :=
  let queryWords := splitWsJS (lowerStr query)
  let relevantWords := relevantWordsCount dc query title snippet
  if relevantWords < (dc.minRelevantWords : ℚ) then (-0.3, ["Low query relevance"])
  else ((relevantWords / (queryWords.length : ℚ)) * cfg.snippetWeight, [])

/-- `validateUrl`: returns `(score delta, issues pushed)`.

NOTE (faithful to the source): the method computes
`const lowerUrl = url.toLowerCase()` but never uses it — every
`pattern.test(url)` call receives the original `url`. -/
def validateUrl (cfg : QualityConfig) (domain : QueryDomain) (url : String) :
    ℚ × List String :=
  let dc := getDomainConfig cfg domain
  if (dc.trustedDomains.getD []).any (fun p => p.test url) then (0.7, [])
  else if cfg.urlPatterns.trusted.any (fun p => p.test url) then (0.5, [])
  else if cfg.urlPatterns.avoid.any (fun p => p.test url) then
    (-0.5, ["Low-quality source"])
  else if cfg.urlPatterns.suspicious.any (fun p => p.test url) then
    (-0.3, ["Suspicious URL pattern"])
  else (0, [])

/-- The spam-word containment check of `validateGeneralContent`. -/
def hasSpamWords (cfg : QualityConfig) (title snippet : String) : Bool :=
  cfg.spamWords.any (fun w =>
    strIncludes (lowerStr title) w || strIncludes (lowerStr snippet) w)

/-- Query-term density in the title (substring containment, not tokens). -/
def titleDensity (query title : String) : ℚ :=
  let queryWords := splitWsJS (lowerStr query)
  ((queryWords.filter (fun w => strIncludes (lowerStr title) w)).length : ℚ) /
    (queryWords.length : ℚ)

/-- Query-term density in the snippet (substring containment). -/
def snippetDensity (query snippet : String) : ℚ :=
  let queryWords := splitWsJS (lowerStr query)
  ((queryWords.filter (fun w => strIncludes (lowerStr snippet) w)).length : ℚ) /
    (queryWords.length : ℚ)

/-- `validateGeneralContent` (pushes no issues — it only moves the score). -/
def validateGeneralContent (cfg : QualityConfig) (query title snippet : String) : ℚ :=
  let s1 : ℚ := if hasSpamWords cfg title snippet then -0.3 else 0
  let s2 : ℚ :=
    s1 + (titleDensity query title * 0.3 + snippetDensity query snippet * 0.2)
  let s3 : ℚ := if sentenceRe.test snippet then s2 + 0.05 else s2
  if wordDiversity snippet < 0.5 then s3 - 0.1 else s3

/-- `isAuthoritySource`: domain-trusted or globally trusted pattern. -/
def isAuthoritySource (cfg : QualityConfig) (domain : QueryDomain) (url : String) :
    Bool :=
  let dc := getDomainConfig cfg domain
  (dc.trustedDomains.getD []).any (fun p => p.test url) ||
    cfg.urlPatterns.trusted.any (fun p => p.test url)

/-- The running `score` accumulator of `validateSearchResult` just before
the clamp: 0.5 plus the six signed deltas.  The length delta is computed
from the original snippet; every later validator sees the possibly-truncated
snippet (`lenR.2.2`), exactly as in the source where the mutation happens
first. -/
def rawScore (cfg : QualityConfig) (query title link snippet : String) : ℚ :=
  let domain := detectQueryDomain cfg query
  let dc := getDomainConfig cfg domain
  let lenR := validateLength cfg dc title snippet
  let snip := lenR.2.2
  0.5 + lenR.1 + (validateRelevance cfg dc query title snip).1 +
    (validateUrl cfg domain link).1 + handlerValidateContent domain title snip +
    validateGeneralContent cfg query title snip +
    (if domain = QueryDomain.nim then validateNimSpecificPatterns title snip else 0)

/-- The main scoring path of `validateSearchResult` (after the presence
check): returns `(final score, issues in push order, snippet after the
truncation side effect)`.  The raw accumulation is `rawScore`; here it is
clamped to `[0, 1]` and the authority boost applied for non-general domains
on authority links, re-clamped to at most 1. -/
def mainScore (cfg : QualityConfig) (query title link snippet : String) :
    ℚ × List String × String :=
  let domain := detectQueryDomain cfg query
  let dc := getDomainConfig cfg domain
  let lenR := validateLength cfg dc title snippet
  let snip := lenR.2.2
  let relR := validateRelevance cfg dc query title snip
  let urlR := validateUrl cfg domain link
  let clamped : ℚ := max 0 (min 1 (rawScore cfg query title link snippet))
  let score : ℚ :=
    if domain ≠ QueryDomain.general ∧ isAuthoritySource cfg domain link then
      min 1 (clamped + dc.authorityBoost)
    else clamped
  (score, lenR.2.1 ++ relR.2 ++ urlR.2, snip)

/-- `validateSearchResult` — the value it returns
(`{ ...result, score, issues: issues.length > 0 ? issues : undefined }`).
A falsy (empty) title, link or snippet short-circuits to score 0. -/
def validateSearchResult (cfg : QualityConfig) (r : SearchResult) (query : String) :
    SearchResult :=
  if r.title = "" ∨ r.link = "" ∨ r.snippet = "" then
    { r with score := some 0, issues := some ["Missing required fields"] }
  else
    let m := mainScore cfg query r.title r.link r.snippet
    { r with snippet := m.2.2, score := some m.1,
             issues := if m.2.1.isEmpty then none else some m.2.1 }

/-- The caller-visible effect of `validateSearchResult` on its argument
object: the only mutation of the input is the snippet truncation inside
`validateLength`; `score` and `issues` live on the returned copy. -/
def validateInputEffect (cfg : QualityConfig) (r : SearchResult) (query : String) :
    SearchResult :=
  if r.title = "" ∨ r.link = "" ∨ r.snippet = "" then r
  else { r with snippet := (mainScore cfg query r.title r.link r.snippet).2.2 }

/-- The caller-visible effect of `analyzeResult` on its argument object:
none — the method writes only to its local copy
(`const analyzed = { ...result }`). -/
def analyzeInputEffect (_cfg : QualityConfig) (r : SearchResult)
    (_query : String) : SearchResult := r

/-- `result.score!` as used by the filter and the sort comparator (the field
is always set on validated results). -/
def scoreOf (r : SearchResult) : ℚ := r.score.getD 0

/-- Stable descending insertion of one element (an element is placed before
the first strictly smaller score, after equal ones that were already there —
the unique stable order of `sort((a, b) => b.score! - a.score!)`). -/
def insertDesc (r : SearchResult) : List SearchResult → List SearchResult
  | [] => [r]
  | x :: xs => if scoreOf r < scoreOf x then x :: insertDesc r xs else r :: x :: xs

/-- Stable descending sort by score, modelling
`sort((a, b) => b.score! - a.score!)` (ECMAScript sorts are stable, and the
stable order for a consistent comparator is unique, so any stable
implementation is a faithful model). -/
def sortByScoreDesc (l : List SearchResult) : List SearchResult :=
  l.foldr insertDesc []

/-- Ascending insertion for JavaScript's default `Array.prototype.sort` on
strings (lexicographic). -/
def insertStr (x : String) : List String → List String
  | [] => [x]
  | y :: ys => if y < x then y :: insertStr x ys else x :: y :: ys

def sortStrings (l : List String) : List String := l.foldr insertStr []

/-- `title.toLowerCase().replace(/[^a-z0-9\s]/g, '')`. -/
def stripToAlnumWs (s : String) : String :=
  ⟨s.data.filter (fun c =>
    ('a' ≤ c && c ≤ 'z') || ('0' ≤ c && c ≤ '9') || c.isWhitespace)⟩

/-- The dedup content signature: lower-cased title, non-alphanumerics
stripped, whitespace tokens sorted, first five joined with spaces. -/
def titleSignature (title : String) : String :=
  String.intercalate " "
    ((sortStrings (splitWsJS (stripToAlnumWs (lowerStr title)))).take 5)

/-- The URL half of the dedup key: `result.link.toLowerCase()`. -/
def urlSignature (link : String) : String := lowerStr link

/-- The scan of `deduplicateResults`: `seen` holds every signature and URL
added so far; a result whose title signature **or** URL is already seen is
dropped, otherwise both keys are added. -/
def deduplicateAux (seen : List String) : List SearchResult → List SearchResult
  | [] => []
  | r :: rs =>
    let signature := titleSignature r.title
    let urlSig := urlSignature r.link
    if seen.contains signature || seen.contains urlSig then deduplicateAux seen rs
    else r :: deduplicateAux (urlSig :: signature :: seen) rs

/-- `deduplicateResults`. -/
def deduplicateResults (results : List SearchResult) : List SearchResult :=
  deduplicateAux [] results

/-- `applyQualityFiltering`: score every result, keep those reaching the
domain-adjusted threshold, sort descending by score, deduplicate. -/
def applyQualityFiltering (cfg : QualityConfig) (results : List SearchResult)
    (query : String) (minQualityScore : ℚ := 0.3) : List SearchResult :=
  let domain := detectQueryDomain cfg query
  let adjustedMinScore : ℚ :=
    if domain ≠ QueryDomain.general then min minQualityScore 0.1 else minQualityScore
  deduplicateResults (sortByScoreDesc
    ((results.map (fun r => validateSearchResult cfg r query)).filter
      (fun r => decide (adjustedMinScore ≤ scoreOf r))))

/-- `analyzeResult` — the enriched copy it returns (`{ ...result }` plus the
metadata fields; `hasCodeExamples` is only assigned for the code-oriented
domains, otherwise the copied value stays).  The input object itself is not
mutated by this method. -/
def analyzeResult (cfg : QualityConfig) (r : SearchResult) (query : String) :
    SearchResult :=
  let domain := detectQueryDomain cfg query
  let hasCode : Option Bool :=
    if domain = QueryDomain.javascript then some (jsDetectCodeExamples r.snippet)
    else if domain = QueryDomain.nim then some (nimDetectCodeExamples r.snippet)
    else r.hasCodeExamples
  { r with
    sourceType := some (handlerDetectSourceType domain r.link)
    difficulty := some (handlerEstimateDifficulty domain r.title r.snippet)
    hasCodeExamples := hasCode
    contentLength := some (if 200 < r.snippet.length then "Long"
                           else if 100 < r.snippet.length then "Medium"
                           else "Short") }

/-! ### Definitions following the spec's words (for refinement claims) -/

/-- The spec's wording of the domain detector: test the keyword sets in the
fixed priority order medical → javascript → nim, returning the first domain
with a substring match anywhere in the lower-cased query, else `general`. -/
def detectDomainSpec (cfg : QualityConfig) (query : String) : QueryDomain :=
  let lq := lowerStr query
  match [(QueryDomain.medical, cfg.medicalConfig.keywords),
         (QueryDomain.javascript, cfg.jsConfig.keywords),
         (QueryDomain.nim, cfg.nimConfig.keywords)].find?
        (fun p => p.2.any (fun k => strIncludes lq k)) with
  | some p => p.1
  | none => QueryDomain.general

/-- The C5 claim's wording of the URL-trust step: the same four-tier cascade
as `validateUrl`, but with every pattern checked against the **case-folded**
link. -/
def validateUrlCasefolded (cfg : QualityConfig) (domain : QueryDomain)
    (url : String) : ℚ × List String :=
  let lowerUrl := lowerStr url
  let dc := getDomainConfig cfg domain
  if (dc.trustedDomains.getD []).any (fun p => p.test lowerUrl) then (0.7, [])
  else if cfg.urlPatterns.trusted.any (fun p => p.test lowerUrl) then (0.5, [])
  else if cfg.urlPatterns.avoid.any (fun p => p.test lowerUrl) then
    (-0.5, ["Low-quality source"])
  else if cfg.urlPatterns.suspicious.any (fun p => p.test lowerUrl) then
    (-0.3, ["Suspicious URL pattern"])
  else (0, [])

/-! ## Theorems -/

/-- **C2**: `detectQueryDomain` is total and deterministic — it is a pure
function of the query, always returning a value — and it agrees everywhere
with the spec-worded detector `detectDomainSpec` (the first domain in the
fixed priority order medical → javascript → nim one of whose keywords occurs
as a substring of the lower-cased query, else `general`); in particular the
empty query yields `general`. -/
theorem claim2_detectQueryDomain_total_priority :
    (∀ q, detectQueryDomain defaultQualityConfig q =
          detectDomainSpec defaultQualityConfig q) ∧
    detectQueryDomain defaultQualityConfig "" = QueryDomain.general := by
  constructor
  · intro q
    unfold detectQueryDomain detectDomainSpec
    cases h1 : defaultQualityConfig.medicalConfig.keywords.any
        (fun k => strIncludes (lowerStr q) k) <;>
      cases h2 : defaultQualityConfig.jsConfig.keywords.any
          (fun k => strIncludes (lowerStr q) k) <;>
        cases h3 : defaultQualityConfig.nimConfig.keywords.any
            (fun k => strIncludes (lowerStr q) k) <;>
          simp [h1, h2, h3, List.find?]
  · decide

/-- **C5 counterexample**: the claim says the URL-trust step checks the link
*case-folded*.  On the link `"HTTPS://WWW.CDC.GOV/flu"` with the medical
domain, the case-folded cascade (`validateUrlCasefolded`, the claim's
wording) would award the domain-trusted delta `+0.7`, but the code
(`validateUrl`) tests every pattern against the original link — the
lower-cased `lowerUrl` variable is computed and never used — and returns
delta `0` with no issue. -/
theorem claim5_counterexample :
    validateUrl defaultQualityConfig QueryDomain.medical "HTTPS://WWW.CDC.GOV/flu"
      = (0, []) ∧
    validateUrlCasefolded defaultQualityConfig QueryDomain.medical
      "HTTPS://WWW.CDC.GOV/flu" = (0.7, []) ∧
    validateUrl defaultQualityConfig QueryDomain.medical "https://www.cdc.gov/flu"
      = (0.7, []) := by
  refine ⟨?_, ?_, ?_⟩ <;> with_unfolding_all decide

/-- **C5 (amended)**: for every link and domain, the URL-trust step checks
the link **as given** (the case-folded copy is computed but unused) against
the tiers in order, applying only the first matching tier: domain-trusted
`+0.7`; else globally trusted `+0.5`; else avoid-listed `−0.5` with issue
"Low-quality source"; else suspicious `−0.3` with issue
"Suspicious URL pattern"; else `0`. -/
theorem claim5_amended_url_cascade (cfg : QualityConfig) (domain : QueryDomain)
    (url : String) :
    ((((getDomainConfig cfg domain).trustedDomains.getD []).any
        (fun p => p.test url)) = true → validateUrl cfg domain url = (0.7, [])) ∧
    ((((getDomainConfig cfg domain).trustedDomains.getD []).any
        (fun p => p.test url)) = false →
      (cfg.urlPatterns.trusted.any (fun p => p.test url)) = true →
      validateUrl cfg domain url = (0.5, [])) ∧
    ((((getDomainConfig cfg domain).trustedDomains.getD []).any
        (fun p => p.test url)) = false →
      (cfg.urlPatterns.trusted.any (fun p => p.test url)) = false →
      (cfg.urlPatterns.avoid.any (fun p => p.test url)) = true →
      validateUrl cfg domain url = (-0.5, ["Low-quality source"])) ∧
    ((((getDomainConfig cfg domain).trustedDomains.getD []).any
        (fun p => p.test url)) = false →
      (cfg.urlPatterns.trusted.any (fun p => p.test url)) = false →
      (cfg.urlPatterns.avoid.any (fun p => p.test url)) = false →
      (cfg.urlPatterns.suspicious.any (fun p => p.test url)) = true →
      validateUrl cfg domain url = (-0.3, ["Suspicious URL pattern"])) ∧
    ((((getDomainConfig cfg domain).trustedDomains.getD []).any
        (fun p => p.test url)) = false →
      (cfg.urlPatterns.trusted.any (fun p => p.test url)) = false →
      (cfg.urlPatterns.avoid.any (fun p => p.test url)) = false →
      (cfg.urlPatterns.suspicious.any (fun p => p.test url)) = false →
      validateUrl cfg domain url = (0, [])) := by
  refine ⟨?_, ?_, ?_, ?_, ?_⟩ <;> intros <;>
    simp only [validateUrl, *, eq_self_iff_true, if_true, Bool.false_eq_true,
      if_false]

/-- Witness for `claim5_amended_url_cascade`: each tier hit at a concrete
link (medical domain for the domain-trusted tier, general for the rest). -/
theorem claim5_amended_witness :
    validateUrl defaultQualityConfig QueryDomain.medical "https://www.cdc.gov/flu"
      = (0.7, []) ∧
    validateUrl defaultQualityConfig QueryDomain.general
      "https://en.wikipedia.org/wiki/Lean" = (0.5, []) ∧
    validateUrl defaultQualityConfig QueryDomain.general
      "https://www.w3schools.com/js" = (-0.5, ["Low-quality source"]) ∧
    validateUrl defaultQualityConfig QueryDomain.general
      "https://example.com/page.php?x=1" = (-0.3, ["Suspicious URL pattern"]) ∧
    validateUrl defaultQualityConfig QueryDomain.general
      "https://example.com/page" = (0, []) :=
  ⟨(claim5_amended_url_cascade defaultQualityConfig QueryDomain.medical
      "https://www.cdc.gov/flu").1 (by decide),
   (claim5_amended_url_cascade defaultQualityConfig QueryDomain.general
      "https://en.wikipedia.org/wiki/Lean").2.1 (by decide) (by decide),
   (claim5_amended_url_cascade defaultQualityConfig QueryDomain.general
      "https://www.w3schools.com/js").2.2.1 (by decide) (by decide) (by decide),
   (claim5_amended_url_cascade defaultQualityConfig QueryDomain.general
      "https://example.com/page.php?x=1").2.2.2.1 (by decide) (by decide)
      (by decide) (by decide),
   (claim5_amended_url_cascade defaultQualityConfig QueryDomain.general
      "https://example.com/page").2.2.2.2 (by decide) (by decide) (by decide)
      (by decide)⟩

/-! ### Helper lemmas and concrete inputs for the filtering claims -/

theorem sortByScoreDesc_singleton (r : SearchResult) : sortByScoreDesc [r] = [r] :=
  rfl

theorem deduplicateResults_singleton (r : SearchResult) :
    deduplicateResults [r] = [r] := rfl

/-- Filtering a single result keeps it exactly when its score reaches the
domain-adjusted threshold. -/
theorem applyQualityFiltering_singleton (cfg : QualityConfig) (r : SearchResult)
    (q : String) (ms : ℚ) :
    applyQualityFiltering cfg [r] q ms =
      if (if detectQueryDomain cfg q ≠ QueryDomain.general then min ms 0.1 else ms) ≤
          scoreOf (validateSearchResult cfg r q)
      then [validateSearchResult cfg r q] else [] := by
  unfold applyQualityFiltering
  simp only [List.map_cons, List.map_nil, List.filter_cons, List.filter_nil,
    decide_eq_true_eq]
  by_cases h :
      (if detectQueryDomain cfg q ≠ QueryDomain.general then min ms 0.1 else ms) ≤
        scoreOf (validateSearchResult cfg r q)
  · rw [if_pos h]
    rfl
  · rw [if_neg h]
    rfl

/-- The result of the C6 scenario: under the medical query `"covid qq"` it
scores exactly 0.15 (0.5 − 0.2 snippet-too-short − 0.3 low-relevance
+ 0.15 title density). -/
def c6result : SearchResult :=
  { title := "xcovidx here", link := "https://zzz.example/a", snippet := "plain here" }

/-- **C6**: a non-general-domain query filters with effective threshold
`min(minScore, 0.1)` while a general-domain query uses `minScore` unchanged
(stated on singleton inputs, where survival is exactly the threshold test);
concretely, `c6result` scores exactly 0.15 under the medical query
`"covid qq"` and survives filtering with `minScore = 0.3`, while under the
general query `"qqqq wwww"` the same result is dropped. -/
theorem claim6_domain_threshold :
    (∀ (r : SearchResult) (q : String) (ms : ℚ),
      detectQueryDomain defaultQualityConfig q ≠ QueryDomain.general →
      (applyQualityFiltering defaultQualityConfig [r] q ms ≠ [] ↔
        min ms 0.1 ≤ scoreOf (validateSearchResult defaultQualityConfig r q))) ∧
    (∀ (r : SearchResult) (q : String) (ms : ℚ),
      detectQueryDomain defaultQualityConfig q = QueryDomain.general →
      (applyQualityFiltering defaultQualityConfig [r] q ms ≠ [] ↔
        ms ≤ scoreOf (validateSearchResult defaultQualityConfig r q))) ∧
    detectQueryDomain defaultQualityConfig "covid qq" = QueryDomain.medical ∧
    scoreOf (validateSearchResult defaultQualityConfig c6result "covid qq") = 0.15 ∧
    applyQualityFiltering defaultQualityConfig [c6result] "covid qq" 0.3 =
      [validateSearchResult defaultQualityConfig c6result "covid qq"] ∧
    detectQueryDomain defaultQualityConfig "qqqq wwww" = QueryDomain.general ∧
    applyQualityFiltering defaultQualityConfig [c6result] "qqqq wwww" 0.3 = [] := by
  refine ⟨?_, ?_, by decide, by with_unfolding_all decide,
    by with_unfolding_all decide, by decide, by with_unfolding_all decide⟩
  · intro r q ms hd
    rw [applyQualityFiltering_singleton, if_pos hd]
    by_cases h : min ms 0.1 ≤ scoreOf (validateSearchResult defaultQualityConfig r q) <;>
      simp [h]
  · intro r q ms hd
    rw [applyQualityFiltering_singleton, hd]
    by_cases h : ms ≤ scoreOf (validateSearchResult defaultQualityConfig r q) <;>
      simp [h]

/-- Witness for `claim6_domain_threshold`: its singleton characterisations
applied at the concrete scenario — the 0.15-scoring result survives under the
medical query with `minScore = 0.3`, and is dropped under the general one. -/
theorem claim6_witness :
    applyQualityFiltering defaultQualityConfig [c6result] "covid qq" 0.3 ≠ [] ∧
    ¬ applyQualityFiltering defaultQualityConfig [c6result] "qqqq wwww" 0.3 ≠ [] :=
  ⟨(claim6_domain_threshold.1 c6result "covid qq" 0.3 (by decide)).mpr
      (by with_unfolding_all decide),
   fun h => absurd
      ((claim6_domain_threshold.2.1 c6result "qqqq wwww" 0.3 (by decide)).mp h)
      (by with_unfolding_all decide)⟩

/-! ### C7: length validation -/

/-- A 900-character snippet for the truncation scenario. -/
def snippet900 : String := ⟨List.replicate 900 'a'⟩

/-- The default configuration with `maxSnippetLength` overridden to 400, as
in the spec's truncation scenario (partial customisation at construction). -/
def config400 : QualityConfig := { defaultQualityConfig with maxSnippetLength := 400 }

theorem strLength_append (a b : String) : (a ++ b).length = a.length + b.length := by
  show (a.data ++ b.data).length = a.data.length + b.data.length
  exact List.length_append a.data b.data

/-- **C7**: length validation case by case — short title: issue
"Title too short" and −0.2; short snippet: issue "Snippet too short" and
−0.2 (shown with both combinations of the title condition via the first two
conjuncts); otherwise an over-long snippet is truncated to exactly
`maxSnippetLength` characters plus `"..."` with no issue and no penalty;
otherwise a snippet within `snippetLengthTolerance` of `idealSnippetLength`
earns `0.1·(1 − diff/tolerance) ≤ 0.1`; concretely, a 900-character snippet
under `maxSnippetLength = 400` becomes exactly 400 characters plus `"..."`
(length 403) with no issue. -/
theorem claim7_length_validation :
    (∀ (cfg : QualityConfig) (dc : DomainConfig) (t s : String),
      t.length < dc.minTitleLength → s.length < dc.minSnippetLength →
      validateLength cfg dc t s = (-0.4, ["Title too short", "Snippet too short"], s)) ∧
    (∀ (cfg : QualityConfig) (dc : DomainConfig) (t s : String),
      ¬(t.length < dc.minTitleLength) → s.length < dc.minSnippetLength →
      validateLength cfg dc t s = (-0.2, ["Snippet too short"], s)) ∧
    (∀ (cfg : QualityConfig) (dc : DomainConfig) (t s : String),
      ¬(t.length < dc.minTitleLength) → ¬(s.length < dc.minSnippetLength) →
      cfg.maxSnippetLength < s.length →
      validateLength cfg dc t s = (0, [], jsSubstringTo s cfg.maxSnippetLength ++ "...") ∧
      (jsSubstringTo s cfg.maxSnippetLength ++ "...").length = cfg.maxSnippetLength + 3) ∧
    (∀ (cfg : QualityConfig) (dc : DomainConfig) (t s : String),
      ¬(t.length < dc.minTitleLength) → ¬(s.length < dc.minSnippetLength) →
      ¬(cfg.maxSnippetLength < s.length) →
      |(s.length : ℚ) - (cfg.idealSnippetLength : ℚ)| ≤ (cfg.snippetLengthTolerance : ℚ) →
      validateLength cfg dc t s =
        (0.1 * (1 - |(s.length : ℚ) - (cfg.idealSnippetLength : ℚ)| /
            (cfg.snippetLengthTolerance : ℚ)), [], s) ∧
      (0 < (cfg.snippetLengthTolerance : ℚ) →
        0.1 * (1 - |(s.length : ℚ) - (cfg.idealSnippetLength : ℚ)| /
            (cfg.snippetLengthTolerance : ℚ)) ≤ 0.1)) ∧
    (snippet900.length = 900 ∧
     validateLength config400 (getDomainConfig config400 QueryDomain.general)
        "A valid title" snippet900 =
          (0, [], jsSubstringTo snippet900 400 ++ "...") ∧
     (jsSubstringTo snippet900 400 ++ "...").length = 403) := by
  refine ⟨?_, ?_, ?_, ?_, by decide, by with_unfolding_all decide,
    by with_unfolding_all decide⟩
  · intro cfg dc t s ht hs
    simp only [validateLength, if_pos ht, if_pos hs]
    norm_num
  · intro cfg dc t s ht hs
    simp only [validateLength, if_neg ht, if_pos hs]
    norm_num
  · intro cfg dc t s ht hs hmax
    refine ⟨by simp only [validateLength, if_neg ht, if_neg hs, if_pos hmax], ?_⟩
    rw [strLength_append]
    have h1 : (jsSubstringTo s cfg.maxSnippetLength).length = cfg.maxSnippetLength := by
      show (s.data.take cfg.maxSnippetLength).length = cfg.maxSnippetLength
      rw [List.length_take]
      exact Nat.min_eq_left (Nat.le_of_lt hmax)
    rw [h1, show ("..." : String).length = 3 from by decide]
  · intro cfg dc t s ht hs hmax hdiff
    refine ⟨?_, ?_⟩
    · simp only [validateLength, if_neg ht, if_neg hs, if_neg hmax, if_pos hdiff]
      norm_num
    · intro htol
      have h1 : 0 ≤ |(s.length : ℚ) - (cfg.idealSnippetLength : ℚ)| /
          (cfg.snippetLengthTolerance : ℚ) :=
        div_nonneg (abs_nonneg _) (le_of_lt htol)
      nlinarith

/-- Witness for `claim7_length_validation`: its conjuncts applied at concrete
inputs (medical thresholds: short title "ab" and short snippet "tiny";
in-tolerance snippet of length 290 under the default config, diff 10,
bonus 0.08 ≤ 0.1). -/
theorem claim7_witness :
    validateLength defaultQualityConfig medicalConfig "ab" "tiny" =
      (-0.4, ["Title too short", "Snippet too short"], "tiny") ∧
    validateLength config400 (getDomainConfig config400 QueryDomain.general)
      "A valid title" snippet900 = (0, [], jsSubstringTo snippet900 400 ++ "...") :=
  ⟨claim7_length_validation.1 defaultQualityConfig medicalConfig "ab" "tiny"
      (by decide) (by decide),
   (claim7_length_validation.2.2.1 config400
      (getDomainConfig config400 QueryDomain.general) "A valid title" snippet900
      (by decide) (by decide) (by decide)).1⟩

/-! ### C8: relevance validation -/

/-- Title of the C8 double-counting scenario: the token `covid` matches
directly (1.0) and three of its synonyms (`coronavirus`, `pandemic`,
`covid-19`) each add 0.8. -/
def c8title : String := "covid coronavirus pandemic covid-19 x"

def c8snippet : String := "short note"

/-- **C8**: relevance — each query token found verbatim among the title or
snippet tokens counts 1.0, each synonym hit adds 0.8 (`relevantWordsCount`),
a total below the domain's `minRelevantWords` yields issue
"Low query relevance" and −0.3 regardless of the count, and otherwise the
delta is `(relevantWordCount / queryTokenCount) · snippetWeight`; on the
concrete medical scenario the count is 3.4 > 1 = number of query tokens
(double counting), and the delta is 3.4 · 0.4 = 1.36 > 1 before clamping. -/
theorem claim8_relevance :
    (∀ (cfg : QualityConfig) (dc : DomainConfig) (q t s : String),
      relevantWordsCount dc q t s < (dc.minRelevantWords : ℚ) →
      validateRelevance cfg dc q t s = (-0.3, ["Low query relevance"])) ∧
    (∀ (cfg : QualityConfig) (dc : DomainConfig) (q t s : String),
      ¬(relevantWordsCount dc q t s < (dc.minRelevantWords : ℚ)) →
      validateRelevance cfg dc q t s =
        ((relevantWordsCount dc q t s / ((splitWsJS (lowerStr q)).length : ℚ)) *
          cfg.snippetWeight, [])) ∧
    relevantWordsCount medicalConfig "covid" c8title c8snippet = 3.4 ∧
    (splitWsJS (lowerStr "covid")).length = 1 ∧
    ((splitWsJS (lowerStr "covid")).length : ℚ) <
      relevantWordsCount medicalConfig "covid" c8title c8snippet ∧
    validateRelevance defaultQualityConfig medicalConfig "covid" c8title c8snippet =
      (1.36, []) := by
  refine ⟨?_, ?_, by with_unfolding_all decide, by decide,
    by with_unfolding_all decide, by with_unfolding_all decide⟩
  · intro cfg dc q t s h
    simp only [validateRelevance, if_pos h]
  · intro cfg dc q t s h
    simp only [validateRelevance, if_neg h]

/-- Witness for `claim8_relevance`: the low-relevance branch at a concrete
input with zero matches, and the ratio branch at the double-counting
scenario. -/
theorem claim8_witness :
    validateRelevance defaultQualityConfig medicalConfig "covid" "unrelated" "words"
      = (-0.3, ["Low query relevance"]) ∧
    validateRelevance defaultQualityConfig medicalConfig "covid" c8title c8snippet
      = ((relevantWordsCount medicalConfig "covid" c8title c8snippet /
          ((splitWsJS (lowerStr "covid")).length : ℚ)) *
            defaultQualityConfig.snippetWeight, []) :=
  ⟨claim8_relevance.1 defaultQualityConfig medicalConfig "covid" "unrelated" "words"
      (by with_unfolding_all decide),
   claim8_relevance.2.1 defaultQualityConfig medicalConfig "covid" c8title c8snippet
      (by with_unfolding_all decide)⟩

/-! ### C10: the pipeline returns copies; the input gains no fields -/

/-- A fresh upstream result (only `title`/`link`/`snippet` set), used for the
C10 and C9 scenarios. -/
def c10input : SearchResult :=
  { title := "qqq example page", link := "https://example.org/page",
    snippet := "some plain text about nothing much in particular here" }

/-- **C10 counterexample**: the claim says the caller's input object is
mutated in place to gain `score`, `issues` and the metadata fields.  In the
code, `validateSearchResult` returns `{ ...result, score, issues }` and
`analyzeResult` writes to `const analyzed = { ...result }` — the only
mutation of the input object is the snippet truncation.  After running both
on `c10input` (general query `"qqq www"`), the input object still has none
of `score`, `issues`, `sourceType`, `difficulty`, `contentLength`,
`hasCodeExamples`, while the returned copy carries `score = 0.85`. -/
theorem claim10_counterexample :
    (analyzeInputEffect defaultQualityConfig
        (validateInputEffect defaultQualityConfig c10input "qqq www")
        "qqq www").score = none ∧
    (analyzeInputEffect defaultQualityConfig
        (validateInputEffect defaultQualityConfig c10input "qqq www")
        "qqq www").issues = none ∧
    (analyzeInputEffect defaultQualityConfig
        (validateInputEffect defaultQualityConfig c10input "qqq www")
        "qqq www").sourceType = none ∧
    (analyzeInputEffect defaultQualityConfig
        (validateInputEffect defaultQualityConfig c10input "qqq www")
        "qqq www").difficulty = none ∧
    (analyzeInputEffect defaultQualityConfig
        (validateInputEffect defaultQualityConfig c10input "qqq www")
        "qqq www").contentLength = none ∧
    (analyzeInputEffect defaultQualityConfig
        (validateInputEffect defaultQualityConfig c10input "qqq www")
        "qqq www").hasCodeExamples = none ∧
    (validateSearchResult defaultQualityConfig c10input "qqq www").score =
      some 0.85 := by
  refine ⟨rfl, rfl, rfl, rfl, rfl, rfl, by with_unfolding_all decide⟩

/-- **C10 (amended)**: the scoring/enrichment pipeline returns **new**
objects carrying the added fields — the validated copy always carries
`score` (and `issues` exactly when any were recorded), the enriched copy
always carries `sourceType`, `difficulty` and `contentLength`, and
`hasCodeExamples` for the code-oriented domains — while the caller's input
object is changed only by the in-place snippet truncation of
`validateLength` (and not at all by `analyzeResult`). -/
theorem claim10_amended_pipeline_copies (r : SearchResult) (q : String)
    (h1 : r.title ≠ "") (h2 : r.link ≠ "") (h3 : r.snippet ≠ "") :
    (validateSearchResult defaultQualityConfig r q).score.isSome = true ∧
    validateInputEffect defaultQualityConfig r q =
      { r with snippet := (mainScore defaultQualityConfig q r.title r.link r.snippet).2.2 } ∧
    analyzeInputEffect defaultQualityConfig r q = r ∧
    (analyzeResult defaultQualityConfig r q).sourceType.isSome = true ∧
    (analyzeResult defaultQualityConfig r q).difficulty.isSome = true ∧
    (analyzeResult defaultQualityConfig r q).contentLength.isSome = true ∧
    ((detectQueryDomain defaultQualityConfig q = QueryDomain.javascript ∨
      detectQueryDomain defaultQualityConfig q = QueryDomain.nim) →
      (analyzeResult defaultQualityConfig r q).hasCodeExamples.isSome = true) := by
  have hp : ¬(r.title = "" ∨ r.link = "" ∨ r.snippet = "") := by
    simp [h1, h2, h3]
  refine ⟨?_, ?_, rfl, rfl, rfl, rfl, ?_⟩
  · unfold validateSearchResult
    rw [if_neg hp]
    rfl
  · unfold validateInputEffect
    rw [if_neg hp]
  · intro hd
    unfold analyzeResult
    rcases hd with hd | hd <;> simp [hd]

/-- Witness for `claim10_amended_pipeline_copies` at the concrete input of
the counterexample. -/
theorem claim10_witness :
    (validateSearchResult defaultQualityConfig c10input "qqq www").score.isSome = true ∧
    analyzeInputEffect defaultQualityConfig c10input "qqq www" = c10input :=
  ⟨(claim10_amended_pipeline_copies c10input "qqq www" (by decide) (by decide)
      (by decide)).1,
   (claim10_amended_pipeline_copies c10input "qqq www" (by decide) (by decide)
      (by decide)).2.2.1⟩

/-! ### C9: the spam penalty -/

/-- The spam variant of `c10input`: identical except that the title contains
the spam word "sponsored". -/
def c9spam : SearchResult :=
  { title := "qqq sponsored example page", link := "https://example.org/page",
    snippet := "some plain text about nothing much in particular here" }

/-- The general-domain config the analyzer builds for general queries. -/
def generalDC : DomainConfig :=
  getDomainConfig defaultQualityConfig QueryDomain.general

/-- **C9 counterexample**: on the concrete pair (`c10input` spam-free,
`c9spam` with "sponsored" in the title, query `"qqq www"`), the score drops
by exactly 0.3 — but the `issues` list does **not** reflect the spam
penalty: `validateGeneralContent` only subtracts from the score and pushes
no issue, so both results end with `issues = undefined`, refuting the
claim's "both the issues list and the score ... reflect the spam penalty". -/
theorem claim9_counterexample :
    hasSpamWords defaultQualityConfig c9spam.title c9spam.snippet = true ∧
    hasSpamWords defaultQualityConfig c10input.title c10input.snippet = false ∧
    scoreOf (validateSearchResult defaultQualityConfig c9spam "qqq www") =
      scoreOf (validateSearchResult defaultQualityConfig c10input "qqq www") - 0.3 ∧
    (validateSearchResult defaultQualityConfig c9spam "qqq www").issues = none ∧
    (validateSearchResult defaultQualityConfig c10input "qqq www").issues = none := by
  refine ⟨by decide, by decide, by with_unfolding_all decide,
    by with_unfolding_all decide, by with_unfolding_all decide⟩

/-- **C9 (amended)**: for results that are identical except for the title,
under a general-domain query, when every title-sensitive scoring step other
than the spam check agrees on the two titles (same length penalty, same
relevance result, same title density), the spam-free result scores exactly
0.3 more than the spam-containing one provided neither clamp binds
(`0.3 ≤ raw ≤ 1` for the spam-free raw score) — and the `issues` lists of
the two results are **identical** (the spam penalty records no issue). -/
theorem claim9_amended_spam_penalty (q : String) (r1 r2 : SearchResult)
    (hdom : detectQueryDomain defaultQualityConfig q = QueryDomain.general)
    (hlink : r2.link = r1.link) (hsnip : r2.snippet = r1.snippet)
    (ht1 : r1.title ≠ "") (ht2 : r2.title ≠ "")
    (hl : r1.link ≠ "") (hs : r1.snippet ≠ "")
    (hlen : validateLength defaultQualityConfig generalDC r2.title r2.snippet =
            validateLength defaultQualityConfig generalDC r1.title r1.snippet)
    (hrel : validateRelevance defaultQualityConfig generalDC q r2.title
              (validateLength defaultQualityConfig generalDC r1.title r1.snippet).2.2 =
            validateRelevance defaultQualityConfig generalDC q r1.title
              (validateLength defaultQualityConfig generalDC r1.title r1.snippet).2.2)
    (hdens : titleDensity q r2.title = titleDensity q r1.title)
    (hspam1 : hasSpamWords defaultQualityConfig r1.title
        (validateLength defaultQualityConfig generalDC r1.title r1.snippet).2.2 = false)
    (hspam2 : hasSpamWords defaultQualityConfig r2.title
        (validateLength defaultQualityConfig generalDC r1.title r1.snippet).2.2 = true)
    (hlo : 0.3 ≤ rawScore defaultQualityConfig q r1.title r1.link r1.snippet)
    (hhi : rawScore defaultQualityConfig q r1.title r1.link r1.snippet ≤ 1) :
    scoreOf (validateSearchResult defaultQualityConfig r2 q) =
      scoreOf (validateSearchResult defaultQualityConfig r1 q) - 0.3 ∧
    (validateSearchResult defaultQualityConfig r2 q).issues =
      (validateSearchResult defaultQualityConfig r1 q).issues := by
  have hp1 : ¬(r1.title = "" ∨ r1.link = "" ∨ r1.snippet = "") := by
    simp [ht1, hl, hs]
  have hp2 : ¬(r2.title = "" ∨ r2.link = "" ∨ r2.snippet = "") := by
    simp [hlink, hsnip, ht2, hl, hs]
  unfold generalDC at hlen hrel hspam1 hspam2
  rw [hsnip] at hlen
  -- the general-content delta differs by exactly the spam penalty
  have hgen : validateGeneralContent defaultQualityConfig q r2.title
        (validateLength defaultQualityConfig
          (getDomainConfig defaultQualityConfig QueryDomain.general)
          r1.title r1.snippet).2.2 =
      validateGeneralContent defaultQualityConfig q r1.title
        (validateLength defaultQualityConfig
          (getDomainConfig defaultQualityConfig QueryDomain.general)
          r1.title r1.snippet).2.2 - 0.3 := by
    simp only [validateGeneralContent, hspam1, hspam2, hdens,
      Bool.false_eq_true, if_false, eq_self_iff_true, if_true]
    split_ifs <;> ring
  -- the raw accumulations differ by exactly the spam penalty
  have hraw : rawScore defaultQualityConfig q r2.title r2.link r2.snippet =
      rawScore defaultQualityConfig q r1.title r1.link r1.snippet - 0.3 := by
    simp only [rawScore, hdom, hlink, hsnip, hlen, handlerValidateContent,
      if_neg (show ¬(QueryDomain.general = QueryDomain.nim) from by decide)]
    rw [hrel, hgen]
    ring
  constructor
  · -- scores
    have h1 : scoreOf (validateSearchResult defaultQualityConfig r1 q) =
        max 0 (min 1 (rawScore defaultQualityConfig q r1.title r1.link r1.snippet)) := by
      unfold validateSearchResult
      rw [if_neg hp1]
      simp only [scoreOf, mainScore, hdom]
      rw [if_neg (by simp)]
      rfl
    have h2 : scoreOf (validateSearchResult defaultQualityConfig r2 q) =
        max 0 (min 1 (rawScore defaultQualityConfig q r2.title r2.link r2.snippet)) := by
      unfold validateSearchResult
      rw [if_neg hp2]
      simp only [scoreOf, mainScore, hdom]
      rw [if_neg (by simp)]
      rfl
    rw [h1, h2, hraw]
    set R := rawScore defaultQualityConfig q r1.title r1.link r1.snippet with hR
    rw [min_eq_right (show R - 0.3 ≤ 1 by linarith),
      max_eq_right (show (0 : ℚ) ≤ R - 0.3 by linarith),
      min_eq_right hhi, max_eq_right (by linarith)]
  · -- issues
    have h1 : (validateSearchResult defaultQualityConfig r1 q).issues =
        (if (mainScore defaultQualityConfig q r1.title r1.link r1.snippet).2.1.isEmpty
         then none
         else some (mainScore defaultQualityConfig q r1.title r1.link r1.snippet).2.1) := by
      unfold validateSearchResult
      rw [if_neg hp1]
    have h2 : (validateSearchResult defaultQualityConfig r2 q).issues =
        (if (mainScore defaultQualityConfig q r2.title r2.link r2.snippet).2.1.isEmpty
         then none
         else some (mainScore defaultQualityConfig q r2.title r2.link r2.snippet).2.1) := by
      unfold validateSearchResult
      rw [if_neg hp2]
    have hm : (mainScore defaultQualityConfig q r2.title r2.link r2.snippet).2.1 =
        (mainScore defaultQualityConfig q r1.title r1.link r1.snippet).2.1 := by
      simp only [mainScore, hdom, hlink, hsnip, hlen]
      rw [hrel]
    rw [h1, h2, hm]

/-- Witness for `claim9_amended_spam_penalty` at the concrete pair of the
counterexample: score exactly 0.3 lower, issues identical. -/
theorem claim9_witness :
    scoreOf (validateSearchResult defaultQualityConfig c9spam "qqq www") =
      scoreOf (validateSearchResult defaultQualityConfig c10input "qqq www") - 0.3 ∧
    (validateSearchResult defaultQualityConfig c9spam "qqq www").issues =
      (validateSearchResult defaultQualityConfig c10input "qqq www").issues :=
  claim9_amended_spam_penalty "qqq www" c10input c9spam
    (by with_unfolding_all decide) (by with_unfolding_all decide)
    (by with_unfolding_all decide) (by with_unfolding_all decide)
    (by with_unfolding_all decide) (by with_unfolding_all decide)
    (by with_unfolding_all decide) (by with_unfolding_all decide)
    (by with_unfolding_all decide) (by with_unfolding_all decide)
    (by with_unfolding_all decide) (by with_unfolding_all decide)
    (by with_unfolding_all decide) (by with_unfolding_all decide)

/-! ### C1: the score invariant -/

theorem mainScore_fst_mem_unit (cfg : QualityConfig) (q t l s : String)
    (hb : 0 ≤ (getDomainConfig cfg (detectQueryDomain cfg q)).authorityBoost) :
    0 ≤ (mainScore cfg q t l s).1 ∧ (mainScore cfg q t l s).1 ≤ 1 := by
  simp only [mainScore]
  have h0 : (0 : ℚ) ≤ max 0 (min 1 (rawScore cfg q t l s)) := le_max_left 0 _
  have h1 : max 0 (min 1 (rawScore cfg q t l s)) ≤ 1 :=
    max_le (by norm_num) (min_le_left 1 _)
  split
  · exact ⟨le_min (by norm_num) (by linarith), min_le_left 1 _⟩
  · exact ⟨h0, h1⟩

/-- **C1**: for every result and query the score attached by
`validateSearchResult` lies in `[0, 1]`: a result failing the presence check
gets score 0, and otherwise the signed deltas are clamped to `[0, 1]` and the
authority boost (non-negative in every domain config) is re-clamped to at
most 1. -/
theorem claim1_score_in_unit_interval (r : SearchResult) (q : String) :
    0 ≤ scoreOf (validateSearchResult defaultQualityConfig r q) ∧
    scoreOf (validateSearchResult defaultQualityConfig r q) ≤ 1 := by
  have hb : 0 ≤ (getDomainConfig defaultQualityConfig
      (detectQueryDomain defaultQualityConfig q)).authorityBoost := by
    cases detectQueryDomain defaultQualityConfig q <;> with_unfolding_all decide
  unfold validateSearchResult
  split
  · constructor <;> simp [scoreOf]
  · have h := mainScore_fst_mem_unit defaultQualityConfig q r.title r.link r.snippet hb
    exact ⟨h.1, h.2⟩

/-! ### Sorting lemmas (for C3) -/

theorem mem_insertDesc {x r : SearchResult} {l : List SearchResult} :
    x ∈ insertDesc r l ↔ x = r ∨ x ∈ l := by
  induction l with
  | nil => simp [insertDesc]
  | cons y ys ih =>
    simp only [insertDesc]
    split
    · simp only [List.mem_cons, ih]
      tauto
    · simp only [List.mem_cons]

theorem sortByScoreDesc_cons (r : SearchResult) (l : List SearchResult) :
    sortByScoreDesc (r :: l) = insertDesc r (sortByScoreDesc l) := rfl

theorem mem_sortByScoreDesc {x : SearchResult} {l : List SearchResult} :
    x ∈ sortByScoreDesc l ↔ x ∈ l := by
  induction l with
  | nil => simp [sortByScoreDesc]
  | cons y ys ih => simp [sortByScoreDesc_cons, mem_insertDesc, ih]

theorem pairwise_insertDesc {r : SearchResult} {l : List SearchResult}
    (h : List.Pairwise (fun a b => scoreOf b ≤ scoreOf a) l) :
    List.Pairwise (fun a b => scoreOf b ≤ scoreOf a) (insertDesc r l) := by
  induction l with
  | nil => simp [insertDesc]
  | cons y ys ih =>
    rcases List.pairwise_cons.mp h with ⟨hy, hys⟩
    simp only [insertDesc]
    split
    · refine List.pairwise_cons.mpr ⟨?_, ih hys⟩
      intro z hz
      rcases mem_insertDesc.mp hz with rfl | hz'
      · exact le_of_lt (by assumption)
      · exact hy z hz'
    · refine List.pairwise_cons.mpr ⟨?_, h⟩
      intro z hz
      rcases List.mem_cons.mp hz with rfl | hz'
      · exact not_lt.mp (by assumption)
      · exact le_trans (hy z hz') (not_lt.mp (by assumption))

theorem pairwise_sortByScoreDesc (l : List SearchResult) :
    List.Pairwise (fun a b => scoreOf b ≤ scoreOf a) (sortByScoreDesc l) := by
  induction l with
  | nil => simp [sortByScoreDesc]
  | cons y ys ih =>
    rw [sortByScoreDesc_cons]
    exact pairwise_insertDesc ih

/-- A stable descending sort of an already-sorted list is the identity. -/
theorem sortByScoreDesc_of_pairwise {l : List SearchResult}
    (h : List.Pairwise (fun a b => scoreOf b ≤ scoreOf a) l) :
    sortByScoreDesc l = l := by
  induction l with
  | nil => rfl
  | cons y ys ih =>
    rcases List.pairwise_cons.mp h with ⟨hy, hys⟩
    rw [sortByScoreDesc_cons, ih hys]
    cases ys with
    | nil => rfl
    | cons z zs =>
      simp only [insertDesc]
      rw [if_neg (not_lt.mpr (hy z (List.mem_cons_self z zs)))]

/-! ### Deduplication lemmas (for C3 and C4) -/

/-- Full cross-distinctness of the two dedup keys between a kept result `a`
and any later kept result `b`. -/
def dedupDistinct (a b : SearchResult) : Prop :=
  titleSignature b.title ≠ titleSignature a.title ∧
  titleSignature b.title ≠ urlSignature a.link ∧
  urlSignature b.link ≠ titleSignature a.title ∧
  urlSignature b.link ≠ urlSignature a.link

theorem dedupAux_sublist (seen : List String) (l : List SearchResult) :
    List.Sublist (deduplicateAux seen l) l := by
  induction l generalizing seen with
  | nil => simp [deduplicateAux]
  | cons r rs ih =>
    simp only [deduplicateAux]
    split
    · exact (ih seen).cons r
    · exact (ih _).cons₂ r

theorem strContains_iff_mem {a : String} {l : List String} :
    l.contains a = true ↔ a ∈ l := List.elem_iff

theorem strContains_eq_false {a : String} {l : List String} (h : a ∉ l) :
    l.contains a = false := by
  cases hc : l.contains a
  · rfl
  · exact absurd (strContains_iff_mem.mp hc) h

theorem dedupAux_keys {seen : List String} {l : List SearchResult}
    {x : SearchResult} (hx : x ∈ deduplicateAux seen l) :
    ∀ a ∈ seen, titleSignature x.title ≠ a ∧ urlSignature x.link ≠ a := by
  induction l generalizing seen with
  | nil => simp [deduplicateAux] at hx
  | cons r rs ih =>
    simp only [deduplicateAux] at hx
    split at hx
    · exact ih hx
    · rename_i hcond
      rw [Bool.or_eq_true, not_or] at hcond
      rcases List.mem_cons.mp hx with rfl | hx'
      · intro a ha
        constructor
        · intro he
          exact hcond.1 (strContains_iff_mem.mpr (he ▸ ha))
        · intro he
          exact hcond.2 (strContains_iff_mem.mpr (he ▸ ha))
      · intro a ha
        exact ih hx' a (by simp [ha])

theorem dedupAux_pairwise (seen : List String) (l : List SearchResult) :
    List.Pairwise dedupDistinct (deduplicateAux seen l) := by
  induction l generalizing seen with
  | nil => simp [deduplicateAux]
  | cons r rs ih =>
    simp only [deduplicateAux]
    split
    · exact ih seen
    · refine List.pairwise_cons.mpr ⟨?_, ih _⟩
      intro y hy
      have h1 := dedupAux_keys hy (titleSignature r.title) (by simp)
      have h2 := dedupAux_keys hy (urlSignature r.link) (by simp)
      exact ⟨h1.1, h2.1, h1.2, h2.2⟩

theorem dedupAux_eq_self {l : List SearchResult} {seen : List String}
    (h1 : ∀ x ∈ l, titleSignature x.title ∉ seen ∧ urlSignature x.link ∉ seen)
    (h2 : List.Pairwise dedupDistinct l) :
    deduplicateAux seen l = l := by
  induction l generalizing seen with
  | nil => rfl
  | cons r rs ih =>
    rcases List.pairwise_cons.mp h2 with ⟨hr, hrs⟩
    have hhead := h1 r (List.mem_cons_self r rs)
    have hc : (seen.contains (titleSignature r.title) ||
        seen.contains (urlSignature r.link)) = false := by
      rw [Bool.or_eq_false_iff]
      exact ⟨strContains_eq_false hhead.1, strContains_eq_false hhead.2⟩
    simp only [deduplicateAux, hc, Bool.false_eq_true, if_false]
    congr 1
    refine ih ?_ hrs
    intro x hx
    have hd := hr x hx
    have hs := h1 x (List.mem_cons_of_mem r hx)
    refine ⟨?_, ?_⟩
    · intro hmem
      rcases List.mem_cons.mp hmem with he | hmem'
      · exact hd.2.1 he
      · rcases List.mem_cons.mp hmem' with he | hmem''
        · exact hd.1 he
        · exact hs.1 hmem''
    · intro hmem
      rcases List.mem_cons.mp hmem with he | hmem'
      · exact hd.2.2.2 he
      · rcases List.mem_cons.mp hmem' with he | hmem''
        · exact hd.2.2.1 he
        · exact hs.2 hmem''

/-! ### Stability of re-validation (for C3) -/

/-- The snippet returned by `validateLength`: truncated exactly when it was
long enough not to be "too short" but longer than `maxSnippetLength`. -/
theorem validateLength_snd_snd (cfg : QualityConfig) (dc : DomainConfig)
    (t s : String) :
    (validateLength cfg dc t s).2.2 =
      if ¬(s.length < dc.minSnippetLength) ∧ cfg.maxSnippetLength < s.length
      then jsSubstringTo s cfg.maxSnippetLength ++ "..." else s := by
  simp only [validateLength]
  split_ifs <;> first | rfl | tauto

theorem truncated_length (s : String) (n : Nat) :
    (jsSubstringTo s n ++ "...").length = min n s.length + 3 := by
  show ((s.data.take n) ++ ("..." : String).data).length = min n s.data.length + 3
  rw [List.length_append, List.length_take,
    show ("..." : String).data.length = 3 from rfl]

/-- Truncating an already-truncated snippet reproduces it: the first
`maxSnippetLength` characters of `take max s ++ "..."` are `take max s`. -/
theorem truncate_idem (s : String) (n : Nat) (h : n ≤ s.length) :
    jsSubstringTo (jsSubstringTo s n ++ "...") n = jsSubstringTo s n := by
  show String.mk (((s.data.take n) ++ ("..." : String).data).take n) =
    String.mk (s.data.take n)
  congr 1
  rw [List.take_append_eq_append_take, List.length_take,
    Nat.min_eq_left (show n ≤ s.data.length from h),
    Nat.sub_self, List.take_zero, List.append_nil, List.take_take,
    Nat.min_self]

/-- Re-running `validateLength` on its own output snippet changes nothing
(given `minSnippetLength ≤ maxSnippetLength`, true of every domain config of
the default configuration). -/
theorem validateLength_stable (cfg : QualityConfig) (dc : DomainConfig)
    (t s : String) (hms : dc.minSnippetLength ≤ cfg.maxSnippetLength) :
    validateLength cfg dc t ((validateLength cfg dc t s).2.2) =
      validateLength cfg dc t s := by
  rw [validateLength_snd_snd]
  by_cases hc : ¬(s.length < dc.minSnippetLength) ∧ cfg.maxSnippetLength < s.length
  · rw [if_pos hc]
    have hlen : (jsSubstringTo s cfg.maxSnippetLength ++ "...").length =
        cfg.maxSnippetLength + 3 := by
      rw [truncated_length, Nat.min_eq_left (le_of_lt hc.2)]
    simp only [validateLength]
    rw [hlen]
    rw [if_neg (show ¬(cfg.maxSnippetLength + 3 < dc.minSnippetLength) from by omega),
      if_pos (show cfg.maxSnippetLength < cfg.maxSnippetLength + 3 from by omega),
      if_neg hc.1, if_pos hc.2,
      truncate_idem s cfg.maxSnippetLength (le_of_lt hc.2)]
  · rw [if_neg hc]

theorem validateLength_snd_snd_ne_empty (cfg : QualityConfig) (dc : DomainConfig)
    (t s : String) (h : s ≠ "") : (validateLength cfg dc t s).2.2 ≠ "" := by
  rw [validateLength_snd_snd]
  split
  · intro he
    have h3 := truncated_length s cfg.maxSnippetLength
    rw [he, show ("" : String).length = 0 from rfl] at h3
    omega
  · exact h

theorem mainScore_snd_snd (cfg : QualityConfig) (q t l s : String) :
    (mainScore cfg q t l s).2.2 =
      (validateLength cfg (getDomainConfig cfg (detectQueryDomain cfg q)) t s).2.2 :=
  rfl

/-- Re-running the main scoring path on its own output snippet reproduces
the whole triple. -/
theorem mainScore_stable (cfg : QualityConfig) (q t l s : String)
    (hms : (getDomainConfig cfg (detectQueryDomain cfg q)).minSnippetLength ≤
      cfg.maxSnippetLength) :
    mainScore cfg q t l ((mainScore cfg q t l s).2.2) = mainScore cfg q t l s := by
  rw [mainScore_snd_snd]
  simp only [mainScore, rawScore]
  rw [validateLength_stable cfg _ t s hms]

/-- `validateSearchResult` is idempotent: re-validating an already-validated
result reproduces it (the snippet has stabilised after one truncation and the
recomputation is deterministic). -/
theorem validateSearchResult_idem (r : SearchResult) (q : String) :
    validateSearchResult defaultQualityConfig
      (validateSearchResult defaultQualityConfig r q) q =
    validateSearchResult defaultQualityConfig r q := by
  have hms : (getDomainConfig defaultQualityConfig
      (detectQueryDomain defaultQualityConfig q)).minSnippetLength ≤
      defaultQualityConfig.maxSnippetLength := by
    cases detectQueryDomain defaultQualityConfig q <;> decide
  obtain ⟨t, l, s, sc, iss, st, hc, df, cl, lu⟩ := r
  by_cases hp : t = "" ∨ l = "" ∨ s = ""
  · have h1 : validateSearchResult defaultQualityConfig
        ⟨t, l, s, sc, iss, st, hc, df, cl, lu⟩ q =
        ⟨t, l, s, some 0, some ["Missing required fields"], st, hc, df, cl, lu⟩ := by
      unfold validateSearchResult
      rw [if_pos hp]
    rw [h1]
    unfold validateSearchResult
    rw [if_pos hp]
  · have hp3 := hp
    push_neg at hp3
    have hsne : (mainScore defaultQualityConfig q t l s).2.2 ≠ "" := by
      rw [mainScore_snd_snd]
      exact validateLength_snd_snd_ne_empty _ _ _ _ hp3.2.2
    have hp2 : ¬(t = "" ∨ l = "" ∨
        (mainScore defaultQualityConfig q t l s).2.2 = "") := by
      push_neg
      exact ⟨hp3.1, hp3.2.1, hsne⟩
    have h1 : validateSearchResult defaultQualityConfig
        ⟨t, l, s, sc, iss, st, hc, df, cl, lu⟩ q =
        ⟨t, l, (mainScore defaultQualityConfig q t l s).2.2,
          some (mainScore defaultQualityConfig q t l s).1,
          if (mainScore defaultQualityConfig q t l s).2.1.isEmpty then none
          else some (mainScore defaultQualityConfig q t l s).2.1,
          st, hc, df, cl, lu⟩ := by
      unfold validateSearchResult
      rw [if_neg hp]
    rw [h1]
    simp only [validateSearchResult]
    rw [if_neg hp2, mainScore_stable defaultQualityConfig q t l s hms]

theorem map_eq_self_of {α : Type} (f : α → α) (l : List α)
    (h : ∀ x ∈ l, f x = x) : l.map f = l := by
  induction l with
  | nil => rfl
  | cons x xs ih =>
    simp only [List.map_cons]
    rw [h x (List.mem_cons_self x xs),
      ih (fun y hy => h y (List.mem_cons_of_mem _ hy))]

/-- **C3**: filtering is idempotent — applying `applyQualityFiltering` to its
own output with the same query and threshold returns the output unchanged
(same elements, same order): re-scoring a validated result is deterministic
and its snippet has stabilised after one truncation, every survivor already
meets the adjusted threshold, the stable descending sort of a sorted list is
the identity, and deduplication keeps every element of an already
deduplicated list. -/
theorem claim3_applyQualityFiltering_idempotent (rs : List SearchResult)
    (q : String) (ms : ℚ) :
    applyQualityFiltering defaultQualityConfig
      (applyQualityFiltering defaultQualityConfig rs q ms) q ms =
      applyQualityFiltering defaultQualityConfig rs q ms := by
  simp only [applyQualityFiltering]
  set adj := if detectQueryDomain defaultQualityConfig q ≠ QueryDomain.general
    then min ms 0.1 else ms with hadj
  set inner := (rs.map (fun r => validateSearchResult defaultQualityConfig r q)).filter
    (fun r => decide (adj ≤ scoreOf r)) with hinner
  set out := deduplicateResults (sortByScoreDesc inner) with hout
  have hsubsort : List.Sublist out (sortByScoreDesc inner) := by
    rw [hout]
    simp only [deduplicateResults]
    exact dedupAux_sublist _ _
  have hsorted : List.Pairwise (fun a b => scoreOf b ≤ scoreOf a) out :=
    List.Pairwise.sublist hsubsort (pairwise_sortByScoreDesc inner)
  have hpair : List.Pairwise dedupDistinct out := by
    rw [hout]
    simp only [deduplicateResults]
    exact dedupAux_pairwise _ _
  have hmem : ∀ x ∈ out, adj ≤ scoreOf x ∧
      ∃ y, x = validateSearchResult defaultQualityConfig y q := by
    intro x hx
    have hx2 : x ∈ inner := mem_sortByScoreDesc.mp (hsubsort.subset hx)
    have hx3 := List.mem_filter.mp hx2
    refine ⟨of_decide_eq_true hx3.2, ?_⟩
    rcases List.mem_map.mp hx3.1 with ⟨y, _, hxy⟩
    exact ⟨y, hxy.symm⟩
  have hid : ∀ x ∈ out, validateSearchResult defaultQualityConfig x q = x := by
    intro x hx
    rcases (hmem x hx).2 with ⟨y, rfl⟩
    exact validateSearchResult_idem y q
  rw [map_eq_self_of _ out hid,
    List.filter_eq_self.mpr (fun x hx => decide_eq_true (hmem x hx).1),
    sortByScoreDesc_of_pairwise hsorted]
  show deduplicateResults out = out
  simp only [deduplicateResults]
  exact dedupAux_eq_self
    (fun x _ => ⟨List.not_mem_nil _, List.not_mem_nil _⟩) hpair

/-- **C4**: after `applyQualityFiltering` no two distinct surviving results
collide on the deduplication key — their title signatures (lower-cased,
non-alphanumerics stripped, tokens sorted, first five joined) differ and
their case-folded URLs differ; the single left-to-right scan in which the
first occurrence of a seen key wins is `deduplicateAux`. -/
theorem claim4_dedup_no_collisions (rs : List SearchResult) (q : String)
    (ms : ℚ) :
    List.Pairwise (fun a b =>
      titleSignature a.title ≠ titleSignature b.title ∧
      urlSignature a.link ≠ urlSignature b.link)
      (applyQualityFiltering defaultQualityConfig rs q ms) := by
  have h : List.Pairwise dedupDistinct
      (applyQualityFiltering defaultQualityConfig rs q ms) := by
    simp only [applyQualityFiltering, deduplicateResults]
    exact dedupAux_pairwise _ _
  exact h.imp (fun hd => ⟨Ne.symm hd.1, Ne.symm hd.2.2.2⟩)

end GSQ
